import Mathlib

/-!
# StorageOS cluster operator: defaulting accessors and the event handler

Shallow embedding of

* `pkg/apis/storageos/v1alpha1/storageoscluster_types.go`: the custom resource
  types, the default constants and the `Get*` accessors of `StorageOSClusterSpec`;
* `pkg/stub/handler.go`: `Handler.Handle`, the event entry point that enforces the
  single-cluster rule and dispatches to the controller.

Go `string` is embedded as `String` (only comparison with the empty string is used),
Go `int` as `Int` (no arithmetic is performed on ports, so no wrap-around can occur),
Go `error` as `Option GoError` with `none` for `nil`.

`Handle` is embedded twice: as one function from the controller state before the call to
the state, the error and the effects after it, and cut at its controller calls into
steps, so that two calls of `Handle` on one controller can be interleaved.
-/

namespace StorageOS

/-! ## Types of `storageoscluster_types.go` -/

/-- ClusterPhase is the phase of the storageos cluster at a given point in time. -/
abbrev ClusterPhase := String

def ClusterPhaseInitial : ClusterPhase := ""
def ClusterPhaseRunning : String := "Running"

def DefaultNamespace : String := "storageos"

def DefaultServiceName : String := "storageos"
def DefaultServiceType : String := "ClusterIP"
def DefaultServiceExternalPort : Int := 5705
def DefaultServiceInternalPort : Int := 5705

def DefaultIngressHostname : String := "storageos.local"

def DefaultNodeContainerImage : String := "storageos/node:1.0.0"
def DefaultCSIDriverRegistrarContainerImage : String := "quay.io/k8scsi/driver-registrar:v0.4.1"
def DefaultCSIExternalProvisionerContainerImage : String := "quay.io/k8scsi/csi-provisioner:v0.4.0"
def DefaultCSIExternalAttacherContainerImage : String := "quay.io/k8scsi/csi-attacher:v0.4.0"
def DefaultInitContainerImage : String := "storageos/init:0.1"

def DefaultCSIEndpoint : String := "unix://var/lib/kubelet/plugins/storageos/csi.sock"
def DefaultCSIRegistrarSocketDir : String := "/var/lib/kubelet/device-plugins/"
def DefaultCSIKubeletDir : String := "/var/lib/kubelet"
def DefaultCSIPluginDir : String := "/var/lib/kubelet/plugins/storageos/"
def DefaultCSIDeviceDir : String := "/dev"
def DefaultCSIRegistrationDir : String := "/var/lib/kubelet/plugins"
def DefaultCSIKubeletRegistrationPath : String := "/var/lib/kubelet/plugins/storageos/csi.sock"
def DefaultCSIDriverRegistrationMode : String := "node-register"
def DefaultCSIDriverRequiresAttachment : String := "true"

/-- ContainerImages contains image names of all the containers used by the operator. -/
structure ContainerImages where
  NodeContainer : String := ""
  InitContainer : String := ""
  CSIDriverRegistrarContainer : String := ""
  CSIExternalProvisionerContainer : String := ""
  CSIExternalAttacherContainer : String := ""
  deriving DecidableEq, Repr

/-- StorageOSClusterCSI contains CSI configurations. -/
structure StorageOSClusterCSI where
  Enable : Bool := false
  Endpoint : String := ""
  EnableProvisionCreds : Bool := false
  EnableControllerPublishCreds : Bool := false
  EnableNodePublishCreds : Bool := false
  RegistrarSocketDir : String := ""
  KubeletDir : String := ""
  PluginDir : String := ""
  DeviceDir : String := ""
  RegistrationDir : String := ""
  KubeletRegistrationPath : String := ""
  DriverRegistrationMode : String := ""
  DriverRequiresAttachment : String := ""
  deriving DecidableEq, Repr

/-- StorageOSClusterService contains Service configurations.
A Go `map[string]string` is embedded as an association list; the Go field `Type`
is spelled `Type_` because `Type` is reserved. -/
structure StorageOSClusterService where
  Name : String := ""
  Type_ : String := ""
  ExternalPort : Int := 0
  InternalPort : Int := 0
  Annotations : List (String × String) := []
  deriving DecidableEq, Repr

/-- StorageOSClusterIngress contains Ingress configurations. -/
structure StorageOSClusterIngress where
  Enable : Bool := false
  Hostname : String := ""
  TLS : Bool := false
  Annotations : List (String × String) := []
  deriving DecidableEq, Repr

/-- NodeHealth contains health status of a node. -/
structure NodeHealth where
  DirectfsInitiator : String := ""
  Director : String := ""
  KV : String := ""
  KVWrite : String := ""
  Nats : String := ""
  Presentation : String := ""
  Rdb : String := ""
  deriving DecidableEq, Repr

/-- StorageOSClusterKVBackend stores key-value store backend configurations. -/
structure StorageOSClusterKVBackend where
  Address : String := ""
  Backend : String := ""
  deriving DecidableEq, Repr

/-- The `corev1.NodeSelectorRequirement` of the Kubernetes API (key, operator, values). -/
structure NodeSelectorRequirement where
  Key : String := ""
  Operator : String := ""
  Values : List String := []
  deriving DecidableEq, Repr

/-- The `corev1.NodeSelectorTerm` of the Kubernetes API. -/
structure NodeSelectorTerm where
  MatchExpressions : List NodeSelectorRequirement := []
  MatchFields : List NodeSelectorRequirement := []
  deriving DecidableEq, Repr

/-- The `corev1.ResourceRequirements` of the Kubernetes API; a resource list maps a
resource name to a quantity, both kept in their serialised string form. -/
structure ResourceRequirements where
  Limits : List (String × String) := []
  Requests : List (String × String) := []
  deriving DecidableEq, Repr

/-- StorageOSClusterSpec defines the desired state of StorageOSCluster.
The field defaults are the Go zero values. -/
structure StorageOSClusterSpec where
  Join : String := ""
  CSI : StorageOSClusterCSI := {}
  ResourceNS : String := ""
  Service : StorageOSClusterService := {}
  SecretRefName : String := ""
  SecretRefNamespace : String := ""
  SharedDir : String := ""
  Ingress : StorageOSClusterIngress := {}
  Images : ContainerImages := {}
  KVBackend : StorageOSClusterKVBackend := {}
  Pause : Bool := false
  Debug : Bool := false
  NodeSelectorTerms : List NodeSelectorTerm := []
  Resources : ResourceRequirements := {}
  deriving DecidableEq, Repr

/-- StorageOSClusterStatus defines the observed state of StorageOSCluster. -/
structure StorageOSClusterStatus where
  Phase : ClusterPhase := ""
  NodeHealthStatus : List (String × NodeHealth) := []
  Nodes : List String := []
  Ready : String := ""
  deriving DecidableEq, Repr

/-- The fields of `metav1.TypeMeta`. -/
structure TypeMeta where
  Kind : String := ""
  APIVersion : String := ""
  deriving DecidableEq, Repr

/-- The fields of `metav1.ObjectMeta` that identify and version an object. -/
structure ObjectMeta where
  Name : String := ""
  Namespace : String := ""
  UID : String := ""
  ResourceVersion : String := ""
  Generation : Int := 0
  deriving DecidableEq, Repr

/-- StorageOSCluster is the Schema for the storageosclusters API. -/
structure StorageOSCluster where
  typeMeta : TypeMeta := {}
  objectMeta : ObjectMeta := {}
  Spec : StorageOSClusterSpec := {}
  Status : StorageOSClusterStatus := {}
  deriving DecidableEq, Repr

/-! ## The accessors of `StorageOSClusterSpec` -/

namespace StorageOSClusterSpec

/-- GetResourceNS returns the namespace where all the resources should be provisioned. -/
def GetResourceNS (s : StorageOSClusterSpec) : String :=
  if s.ResourceNS != "" then s.ResourceNS else DefaultNamespace

/-- GetNodeContainerImage returns node container image. -/
def GetNodeContainerImage (s : StorageOSClusterSpec) : String :=
  if s.Images.NodeContainer != "" then s.Images.NodeContainer else DefaultNodeContainerImage

/-- GetInitContainerImage returns init container image. -/
def GetInitContainerImage (s : StorageOSClusterSpec) : String :=
  if s.Images.InitContainer != "" then s.Images.InitContainer else DefaultInitContainerImage

/-- GetCSIDriverRegistrarImage returns CSI driver registrar container image. -/
def GetCSIDriverRegistrarImage (s : StorageOSClusterSpec) : String :=
  if s.Images.CSIDriverRegistrarContainer != "" then s.Images.CSIDriverRegistrarContainer
  else DefaultCSIDriverRegistrarContainerImage

/-- GetCSIExternalProvisionerImage returns CSI external provisioner container image. -/
def GetCSIExternalProvisionerImage (s : StorageOSClusterSpec) : String :=
  if s.Images.CSIExternalProvisionerContainer != "" then s.Images.CSIExternalProvisionerContainer
  else DefaultCSIExternalProvisionerContainerImage

/-- GetCSIExternalAttacherImage returns CSI external attacher container image. -/
def GetCSIExternalAttacherImage (s : StorageOSClusterSpec) : String :=
  if s.Images.CSIExternalAttacherContainer != "" then s.Images.CSIExternalAttacherContainer
  else DefaultCSIExternalAttacherContainerImage

/-- GetServiceName returns the service name. -/
def GetServiceName (s : StorageOSClusterSpec) : String :=
  if s.Service.Name != "" then s.Service.Name else DefaultServiceName

/-- GetServiceType returns the service type. -/
def GetServiceType (s : StorageOSClusterSpec) : String :=
  if s.Service.Type_ != "" then s.Service.Type_ else DefaultServiceType

/-- GetServiceExternalPort returns the service external port. -/
def GetServiceExternalPort (s : StorageOSClusterSpec) : Int :=
  if s.Service.ExternalPort != 0 then s.Service.ExternalPort else DefaultServiceExternalPort

/-- GetServiceInternalPort returns the service internal port. -/
def GetServiceInternalPort (s : StorageOSClusterSpec) : Int :=
  if s.Service.InternalPort != 0 then s.Service.InternalPort else DefaultServiceInternalPort

/-- GetIngressHostname returns the ingress host name. -/
def GetIngressHostname (s : StorageOSClusterSpec) : String :=
  if s.Ingress.Hostname != "" then s.Ingress.Hostname else DefaultIngressHostname

/-- GetCSIEndpoint returns the CSI unix socket endpoint path. -/
def GetCSIEndpoint (s : StorageOSClusterSpec) : String :=
  if s.CSI.Endpoint != "" then s.CSI.Endpoint else DefaultCSIEndpoint

/-- GetCSIRegistrarSocketDir returns the CSI registrar socket dir. -/
def GetCSIRegistrarSocketDir (s : StorageOSClusterSpec) : String :=
  if s.CSI.RegistrarSocketDir != "" then s.CSI.RegistrarSocketDir
  else DefaultCSIRegistrarSocketDir

/-- GetCSIKubeletDir returns the Kubelet dir. -/
def GetCSIKubeletDir (s : StorageOSClusterSpec) : String :=
  if s.CSI.KubeletDir != "" then s.CSI.KubeletDir else DefaultCSIKubeletDir

/-- GetCSIPluginDir returns the CSI plugin dir. -/
def GetCSIPluginDir (s : StorageOSClusterSpec) : String :=
  if s.CSI.PluginDir != "" then s.CSI.PluginDir else DefaultCSIPluginDir

/-- GetCSIDeviceDir returns the CSI device dir. -/
def GetCSIDeviceDir (s : StorageOSClusterSpec) : String :=
  if s.CSI.DeviceDir != "" then s.CSI.DeviceDir else DefaultCSIDeviceDir

/-- GetCSIRegistrationDir returns the CSI registration dir. -/
def GetCSIRegistrationDir (s : StorageOSClusterSpec) : String :=
  if s.CSI.RegistrationDir != "" then s.CSI.RegistrationDir else DefaultCSIRegistrationDir

/-- GetCSIKubeletRegistrationPath returns the CSI Kubelet Registration Path. -/
def GetCSIKubeletRegistrationPath (s : StorageOSClusterSpec) : String :=
  if s.CSI.KubeletRegistrationPath != "" then s.CSI.KubeletRegistrationPath
  else DefaultCSIKubeletRegistrationPath

/-- GetCSIDriverRegistrationMode returns the CSI Driver Registration Mode. -/
def GetCSIDriverRegistrationMode (s : StorageOSClusterSpec) : String :=
  if s.CSI.DriverRegistrationMode != "" then s.CSI.DriverRegistrationMode
  else DefaultCSIDriverRegistrationMode

/-- GetCSIDriverRequiresAttachment returns the CSI Driver Requires Attachment. -/
def GetCSIDriverRequiresAttachment (s : StorageOSClusterSpec) : String :=
  if s.CSI.DriverRequiresAttachment != "" then s.CSI.DriverRequiresAttachment
  else DefaultCSIDriverRequiresAttachment

end StorageOSClusterSpec

/-! ## Collaborators of `handler.go` -/

/-- A Go `error` value, observed through the message its `Error()` method returns.
The Go type `error` itself is `Option GoError`, `none` being `nil`. -/
structure GoError where
  msg : String
  deriving DecidableEq, Repr

/-- The `Error()` method of a Go error. -/
def GoError.Error (e : GoError) : String := e.msg

/-- The call `fmt.Errorf(format)` with a format string that has no verbs and no
arguments: the error whose message is the format string. -/
def fmt.Errorf (format : String) : GoError := { msg := format }

/-- The constant `corev1.EventTypeWarning` of the Kubernetes API. -/
def corev1.EventTypeWarning : String := "Warning"

/-- The constant `corev1.EventTypeNormal` of the Kubernetes API. -/
def corev1.EventTypeNormal : String := "Normal"

/-- A `record.EventRecorder`: the recorders are told apart by an identifier, and the
calls made on them appear in the effect trace of `Handle`. -/
structure EventRecorder where
  id : Nat
  deriving DecidableEq, Repr

/-- A `context.Context`, reduced to whether it has been cancelled. -/
structure Context where
  cancelled : Bool
  deriving DecidableEq, Repr

/-- The dynamic type of an `sdk.Object`, as far as the type switch of `Handle` tells
it apart: a `*v1alpha1.StorageOSCluster` (pointing to a cluster object), or anything
else (named by its kind). -/
inductive Object where
  | storageOSCluster (o : StorageOSCluster)
  | other (kind : String)
  deriving DecidableEq, Repr

/-- The `sdk.Event` delivered to a handler. -/
structure Event where
  Object : Object
  Deleted : Bool
  deriving DecidableEq, Repr

/-- What `Handle` does to its collaborators, in program order. -/
inductive Effect where
  /-- The call `recorder.Event(object, eventtype, reason, message)`. -/
  | recorderEvent (recorder : EventRecorder) (object : StorageOSCluster)
      (eventtype reason message : String)
  /-- The call `controller.Reconcile(cluster, recorder)`. -/
  | reconcile (cluster : StorageOSCluster) (recorder : EventRecorder)
  deriving DecidableEq, Repr

/-- The four methods of `*controller.ClusterController` that `Handle` calls, over a
controller state `σ`. The package `pkg/controller` is not part of the sources at hand,
so `Handle` takes the methods as a parameter. Their shapes are those of the call sites:
`IsCurrentCluster` is a query used as a condition, `SetCurrentClusterIfNone` and
`ResetCurrentCluster` return nothing and act on the controller, `Reconcile` returns an
error and may act on the controller. -/
structure ClusterController (σ : Type) where
  IsCurrentCluster : σ → StorageOSCluster → Bool
  SetCurrentClusterIfNone : σ → StorageOSCluster → σ
  ResetCurrentCluster : σ → σ
  Reconcile : σ → StorageOSCluster → EventRecorder → σ × Option GoError

/-- Handler contains the controller and event broadcast recorder. -/
structure Handler (σ : Type) where
  eventRecorder : EventRecorder
  controller : ClusterController σ

/-- NewHandler returns a new event handler given a recorder and controller. -/
def NewHandler {σ : Type} (eRec : EventRecorder) (c : ClusterController σ) : Handler σ :=
  { eventRecorder := eRec, controller := c }

/-- The outcome of one call of `Handle`: the controller state it leaves, the error it
returns and the effects it had. -/
structure HandleResult (σ : Type) where
  state : σ
  err : Option GoError
  effects : List Effect

/-- Handle calls the controller reconcile method based on the event.
The state `st` is the state of the controller `h.controller` points to. -/
def Handler.Handle {σ : Type} (h : Handler σ) (st : σ) (_ctx : Context) (event : Event) :
    HandleResult σ :=
  match event.Object with
  | Object.storageOSCluster o =>
    if event.Deleted then
      -- If the current cluster is deleted, reset current cluster.
      if h.controller.IsCurrentCluster st o then
        { state := h.controller.ResetCurrentCluster st, err := none, effects := [] }
      else
        { state := st, err := none, effects := [] }
    else
      -- Set as the current cluster if there is no current cluster.
      let st1 := h.controller.SetCurrentClusterIfNone st o
      -- If the event does not belong to the current cluster, do not reconcile.
      if !h.controller.IsCurrentCluster st1 o then
        let err := fmt.Errorf "can't create more than one storageos cluster"
        { state := st1, err := some err,
          effects := [Effect.recorderEvent h.eventRecorder o corev1.EventTypeWarning
            "FailedCreation" err.Error] }
      else
        let r := h.controller.Reconcile st1 o h.eventRecorder
        { state := r.1, err := r.2, effects := [Effect.reconcile o h.eventRecorder] }
  | Object.other _ => { state := st, err := none, effects := [] }

/-- Whether an effect is a call of `Reconcile`. -/
def Effect.isReconcile : Effect → Bool
  | Effect.reconcile _ _ => true
  | Effect.recorderEvent _ _ _ _ _ => false

/-- Whether an effect is an event emitted on the recorder. -/
def Effect.isRecorderEvent : Effect → Bool
  | Effect.reconcile _ _ => false
  | Effect.recorderEvent _ _ _ _ _ => true

/-- How a call of `Handle` disposed of its event. -/
inductive Classification where
  | admitted
  | denied
  | ignored
  deriving DecidableEq, Repr

/-- The classification of a call of `Handle`, read off its effects: admitted when it
called `Reconcile`, denied when it emitted an event on the recorder instead, ignored
when it did neither. -/
def HandleResult.classification {σ : Type} (res : HandleResult σ) : Classification :=
  if res.effects.any Effect.isReconcile then Classification.admitted
  else if res.effects.any Effect.isRecorderEvent then Classification.denied
  else Classification.ignored

/-- One delivery of the event source: a call `Handle(ctx, event)`. -/
structure Delivery where
  ctx : Context
  event : Event
  deriving DecidableEq, Repr

/-- The controller state after the handler has handled the deliveries in order. -/
def Handler.stateAfter {σ : Type} (h : Handler σ) (st : σ) (ds : List Delivery) : σ :=
  ds.foldl (fun s d => (h.Handle s d.ctx d.event).state) st

/-! ## The cluster registry -/

/-- The identity of a cluster: the pair (namespace, name). -/
abbrev Identity := String × String

/-- The identity of a cluster object, read from its metadata. -/
def StorageOSCluster.identity (c : StorageOSCluster) : Identity :=
  (c.objectMeta.Namespace, c.objectMeta.Name)

/-- Modelled from the spec: the cluster registry of `pkg/controller`, whose code is not
part of the sources at hand. It is a single slot that is empty or holds one identity. -/
abbrev Registry := Option Identity

/-- Modelled from the spec: `isCurrent(c)` of the registry (`IsCurrentCluster` of
`pkg/controller`): true iff the slot is occupied and its identity equals that of `c`;
an unoccupied slot returns false for every input. -/
def Registry.isCurrent (r : Registry) (c : StorageOSCluster) : Bool :=
  match r with
  | none => false
  | some i => i == c.identity

/-- Modelled from the spec: `setIfNone(c)` of the registry (`SetCurrentClusterIfNone` of
`pkg/controller`): if the slot is empty, store the identity of `c`; otherwise no-op. -/
def Registry.setIfNone (r : Registry) (c : StorageOSCluster) : Registry :=
  match r with
  | none => some c.identity
  | some i => some i

/-- Modelled from the spec: `reset()` of the registry (`ResetCurrentCluster` of
`pkg/controller`): empty the slot unconditionally. -/
def Registry.reset (_r : Registry) : Registry := none

/-- Modelled from the spec: the controller of `pkg/controller` as the spec describes it.
Its state is the registry; `Reconcile(cluster, eventSink)` is the external reconciler
`reconcile`, which returns an error or nil and does not touch the registry (mutations
of the registry are confined to `setIfNone` and `reset`). -/
def registryController (reconcile : StorageOSCluster → EventRecorder → Option GoError) :
    ClusterController Registry :=
  { IsCurrentCluster := Registry.isCurrent
    SetCurrentClusterIfNone := Registry.setIfNone
    ResetCurrentCluster := Registry.reset
    Reconcile := fun r o eRec => (r, reconcile o eRec) }

/-- A delivery is a delete event for a cluster object of identity `i`. -/
def Delivery.isDeleteOf (d : Delivery) (i : Identity) : Bool :=
  match d.event.Object with
  | Object.storageOSCluster o => d.event.Deleted && o.identity == i
  | Object.other _ => false

/-! ## `Handle` call by call, and two calls of `Handle` at once -/

/-- Where a call of `Handle` stands between two calls on its controller. -/
inductive CallState where
  /-- `Handle` has been entered with the delivery; no controller call has been made. -/
  | start (d : Delivery)
  /-- Delete path: `IsCurrentCluster(o)` answered true, `ResetCurrentCluster` is next. -/
  | afterIsCurrentOnDelete (o : StorageOSCluster)
  /-- Non-delete path: `SetCurrentClusterIfNone(o)` is done, `IsCurrentCluster(o)` is
  next. -/
  | afterSetIfNone (o : StorageOSCluster)
  /-- Non-delete path: `IsCurrentCluster(o)` answered true, `Reconcile` is next. -/
  | beforeReconcile (o : StorageOSCluster)
  /-- `Handle` has returned `err`, having had the effects `effects`. -/
  | returned (err : Option GoError) (effects : List Effect)
  deriving DecidableEq, Repr

/-- Whether the call has returned. -/
def CallState.isReturned : CallState → Bool
  | CallState.returned _ _ => true
  | _ => false

/-- A bound on the number of controller calls the call of `Handle` has still to make. -/
def CallState.remaining : CallState → Nat
  | CallState.start _ => 3
  | CallState.afterSetIfNone _ => 2
  | CallState.afterIsCurrentOnDelete _ => 1
  | CallState.beforeReconcile _ => 1
  | CallState.returned _ _ => 0

/-- One step of a call of `Handle`: it runs up to and including its next call on the
controller (and up to its return when no such call is left). The steps are the body of
`Handle` cut at its controller calls. -/
def Handler.stepCall {σ : Type} (h : Handler σ) (st : σ) : CallState → σ × CallState
  | CallState.start d =>
    match d.event.Object with
    | Object.storageOSCluster o =>
      if d.event.Deleted then
        if h.controller.IsCurrentCluster st o then (st, CallState.afterIsCurrentOnDelete o)
        else (st, CallState.returned none [])
      else (h.controller.SetCurrentClusterIfNone st o, CallState.afterSetIfNone o)
    | Object.other _ => (st, CallState.returned none [])
  | CallState.afterIsCurrentOnDelete _ =>
    (h.controller.ResetCurrentCluster st, CallState.returned none [])
  | CallState.afterSetIfNone o =>
    if !h.controller.IsCurrentCluster st o then
      let err := fmt.Errorf "can't create more than one storageos cluster"
      (st, CallState.returned (some err)
        [Effect.recorderEvent h.eventRecorder o corev1.EventTypeWarning "FailedCreation"
          err.Error])
    else (st, CallState.beforeReconcile o)
  | CallState.beforeReconcile o =>
    let r := h.controller.Reconcile st o h.eventRecorder
    (r.1, CallState.returned r.2 [Effect.reconcile o h.eventRecorder])
  | CallState.returned err effects => (st, CallState.returned err effects)

/-- A call of `Handle` run alone for `n` steps. -/
def Handler.runCall {σ : Type} (h : Handler σ) : Nat → σ × CallState → σ × CallState
  | 0, c => c
  | n + 1, c => h.runCall n (h.stepCall c.1 c.2)

/-- Two calls of `Handle` on one controller: the controller state and where each of the
two calls stands. -/
structure Concurrent (σ : Type) where
  state : σ
  first : CallState
  second : CallState
  deriving DecidableEq, Repr

/-- Both calls have returned. -/
def Concurrent.finished {σ : Type} (c : Concurrent σ) : Bool :=
  c.first.isReturned && c.second.isReturned

/-- The first call takes one step. -/
def Handler.stepFirst {σ : Type} (h : Handler σ) (c : Concurrent σ) : Concurrent σ :=
  { state := (h.stepCall c.state c.first).1, first := (h.stepCall c.state c.first).2,
    second := c.second }

/-- The second call takes one step. -/
def Handler.stepSecond {σ : Type} (h : Handler σ) (c : Concurrent σ) : Concurrent σ :=
  { state := (h.stepCall c.state c.second).1, first := c.first,
    second := (h.stepCall c.state c.second).2 }

/-- The two calls interleaved by a schedule: at `true` the first call takes its next
step, at `false` the second one. Each controller call is one step, so it is atomic. -/
def Handler.interleave {σ : Type} (h : Handler σ) (c : Concurrent σ) :
    List Bool → Concurrent σ
  | [] => c
  | true :: schedule => h.interleave (h.stepFirst c) schedule
  | false :: schedule => h.interleave (h.stepSecond c) schedule

/-- The two deliveries handled one after the other, the first one first. -/
def Handler.inOrder {σ : Type} (h : Handler σ) (st : σ) (d1 d2 : Delivery) : Concurrent σ :=
  { state := (h.Handle (h.Handle st d1.ctx d1.event).state d2.ctx d2.event).state
    first := CallState.returned (h.Handle st d1.ctx d1.event).err
      (h.Handle st d1.ctx d1.event).effects
    second := CallState.returned
      (h.Handle (h.Handle st d1.ctx d1.event).state d2.ctx d2.event).err
      (h.Handle (h.Handle st d1.ctx d1.event).state d2.ctx d2.event).effects }

/-- The two deliveries handled one after the other, the second one first. -/
def Handler.inReverseOrder {σ : Type} (h : Handler σ) (st : σ) (d1 d2 : Delivery) :
    Concurrent σ :=
  { state := (h.Handle (h.Handle st d2.ctx d2.event).state d1.ctx d1.event).state
    first := CallState.returned
      (h.Handle (h.Handle st d2.ctx d2.event).state d1.ctx d1.event).err
      (h.Handle (h.Handle st d2.ctx d2.event).state d1.ctx d1.event).effects
    second := CallState.returned (h.Handle st d2.ctx d2.event).err
      (h.Handle st d2.ctx d2.event).effects }

/-- Two concurrent calls of `Handle` are linearisable from a controller state when every
schedule that lets both calls return ends as one of the two sequential orders does: same
controller state, same error and same effects of each call. -/
def Handler.Linearisable {σ : Type} (h : Handler σ) (st : σ) (d1 d2 : Delivery) : Prop :=
  ∀ schedule : List Bool,
    (h.interleave { state := st, first := CallState.start d1, second := CallState.start d2 }
      schedule).finished = true →
    h.interleave { state := st, first := CallState.start d1, second := CallState.start d2 }
        schedule = h.inOrder st d1 d2 ∨
    h.interleave { state := st, first := CallState.start d1, second := CallState.start d2 }
        schedule = h.inReverseOrder st d1 d2

/-- All the ways two calls can end: the finished configurations reachable within `n`
steps, a call that has returned taking no step. -/
def Handler.outcomes {σ : Type} (h : Handler σ) : Nat → Concurrent σ → List (Concurrent σ)
  | 0, c => if c.finished then [c] else []
  | n + 1, c =>
    if c.finished then [c]
    else
      (if c.first.isReturned then [] else h.outcomes n (h.stepFirst c)) ++
      (if c.second.isReturned then [] else h.outcomes n (h.stepSecond c))

/-! ## Concrete inputs used by the witnesses -/

/-- A spec in which some defaulted fields are set and the others are left empty. -/
def exampleSpec : StorageOSClusterSpec :=
  { Join := "tok"
    ResourceNS := "kube-system"
    Service := { Name := "", Type_ := "NodePort", ExternalPort := -1, InternalPort := 70000 }
    Images := { NodeContainer := "storageos/node:1.1.0" }
    CSI := { Enable := true, DeviceDir := "/devices", DriverRequiresAttachment := "false" } }

/-- The cluster `(ops, a)` of the end-to-end scenarios. -/
def clusterA : StorageOSCluster :=
  { objectMeta := { Namespace := "ops", Name := "a", UID := "uid-a", ResourceVersion := "1" }
    Spec := { Join := "tok" } }

/-- The cluster `(ops, b)` of the end-to-end scenarios. -/
def clusterB : StorageOSCluster :=
  { objectMeta := { Namespace := "ops", Name := "b", UID := "uid-b", ResourceVersion := "7" }
    Spec := { Join := "tok" } }

/-- The event recorder of the example handler. -/
def exampleRecorder : EventRecorder := { id := 1 }

/-- A context that has not been cancelled. -/
def background : Context := { cancelled := false }

/-- A reconciler that fails on the cluster named `b` and succeeds on every other one. -/
def exampleReconcile (o : StorageOSCluster) (_eRec : EventRecorder) : Option GoError :=
  if o.objectMeta.Name == "b" then some { msg := "reconcile failed" } else none

/-- The create event for a cluster, delivered with the background context. -/
def createOf (o : StorageOSCluster) : Delivery :=
  { ctx := background, event := { Object := Object.storageOSCluster o, Deleted := false } }

/-- The delete event for a cluster, delivered with the background context. -/
def deleteOf (o : StorageOSCluster) : Delivery :=
  { ctx := background, event := { Object := Object.storageOSCluster o, Deleted := true } }

/-- Scenarios S1, S2 and S5 in a row: create `(ops, a)`, create `(ops, b)`, delete
`(ops, b)`. -/
def exampleDeliveries : List Delivery := [createOf clusterA, createOf clusterB, deleteOf clusterB]

/-- A later revision of `(ops, a)` (scenario S3): same namespace and name, another
UID and resource version, `spec.debug` set and a status written. -/
def clusterAUpdated : StorageOSCluster :=
  { objectMeta := { Namespace := "ops", Name := "a", UID := "uid-a2", ResourceVersion := "2" }
    Spec := { Join := "tok", Debug := true }
    Status := { Phase := "Running", Nodes := ["node-1"], Ready := "1/1" } }

/-- A context that has been cancelled. -/
def cancelledContext : Context := { cancelled := true }

/-- A spec whose `driverRequiresAttachment` is neither of the two literals. -/
def maybeSpec : StorageOSClusterSpec :=
  { Join := "tok", CSI := { DriverRequiresAttachment := "maybe" } }

/-- The schedule in which the delete call runs between the two registry calls of the
create call: `SetCurrentClusterIfNone` of the first call, `IsCurrentCluster` and
`ResetCurrentCluster` of the second, `IsCurrentCluster` of the first. -/
def racingSchedule : List Bool := [true, false, false, true]

/-! ## The defaulting accessors -/

/-- The shape shared by the string accessors: the stored value when it is not the
empty string, the default when it is. -/
theorem ite_bne_empty (x d : String) :
    (x ≠ "" → (if x != "" then x else d) = x) ∧
    (x = "" → (if x != "" then x else d) = d) := by
  constructor
  · intro hx
    simp [hx]
  · intro hx
    simp [hx]

open StorageOSClusterSpec in
/-- C1: each of the 18 string accessors returns the stored field when that field is a
non-empty string, and the default constant of the field when it is the empty string. -/
theorem string_accessors_stored_or_default (s : StorageOSClusterSpec) :
    ((s.ResourceNS ≠ "" → s.GetResourceNS = s.ResourceNS) ∧
      (s.ResourceNS = "" → s.GetResourceNS = DefaultNamespace)) ∧
    ((s.Images.NodeContainer ≠ "" → s.GetNodeContainerImage = s.Images.NodeContainer) ∧
      (s.Images.NodeContainer = "" → s.GetNodeContainerImage = DefaultNodeContainerImage)) ∧
    ((s.Images.InitContainer ≠ "" → s.GetInitContainerImage = s.Images.InitContainer) ∧
      (s.Images.InitContainer = "" → s.GetInitContainerImage = DefaultInitContainerImage)) ∧
    ((s.Images.CSIDriverRegistrarContainer ≠ "" →
        s.GetCSIDriverRegistrarImage = s.Images.CSIDriverRegistrarContainer) ∧
      (s.Images.CSIDriverRegistrarContainer = "" →
        s.GetCSIDriverRegistrarImage = DefaultCSIDriverRegistrarContainerImage)) ∧
    ((s.Images.CSIExternalProvisionerContainer ≠ "" →
        s.GetCSIExternalProvisionerImage = s.Images.CSIExternalProvisionerContainer) ∧
      (s.Images.CSIExternalProvisionerContainer = "" →
        s.GetCSIExternalProvisionerImage = DefaultCSIExternalProvisionerContainerImage)) ∧
    ((s.Images.CSIExternalAttacherContainer ≠ "" →
        s.GetCSIExternalAttacherImage = s.Images.CSIExternalAttacherContainer) ∧
      (s.Images.CSIExternalAttacherContainer = "" →
        s.GetCSIExternalAttacherImage = DefaultCSIExternalAttacherContainerImage)) ∧
    ((s.Service.Name ≠ "" → s.GetServiceName = s.Service.Name) ∧
      (s.Service.Name = "" → s.GetServiceName = DefaultServiceName)) ∧
    ((s.Service.Type_ ≠ "" → s.GetServiceType = s.Service.Type_) ∧
      (s.Service.Type_ = "" → s.GetServiceType = DefaultServiceType)) ∧
    ((s.Ingress.Hostname ≠ "" → s.GetIngressHostname = s.Ingress.Hostname) ∧
      (s.Ingress.Hostname = "" → s.GetIngressHostname = DefaultIngressHostname)) ∧
    ((s.CSI.Endpoint ≠ "" → s.GetCSIEndpoint = s.CSI.Endpoint) ∧
      (s.CSI.Endpoint = "" → s.GetCSIEndpoint = DefaultCSIEndpoint)) ∧
    ((s.CSI.RegistrarSocketDir ≠ "" → s.GetCSIRegistrarSocketDir = s.CSI.RegistrarSocketDir) ∧
      (s.CSI.RegistrarSocketDir = "" →
        s.GetCSIRegistrarSocketDir = DefaultCSIRegistrarSocketDir)) ∧
    ((s.CSI.KubeletDir ≠ "" → s.GetCSIKubeletDir = s.CSI.KubeletDir) ∧
      (s.CSI.KubeletDir = "" → s.GetCSIKubeletDir = DefaultCSIKubeletDir)) ∧
    ((s.CSI.PluginDir ≠ "" → s.GetCSIPluginDir = s.CSI.PluginDir) ∧
      (s.CSI.PluginDir = "" → s.GetCSIPluginDir = DefaultCSIPluginDir)) ∧
    ((s.CSI.DeviceDir ≠ "" → s.GetCSIDeviceDir = s.CSI.DeviceDir) ∧
      (s.CSI.DeviceDir = "" → s.GetCSIDeviceDir = DefaultCSIDeviceDir)) ∧
    ((s.CSI.RegistrationDir ≠ "" → s.GetCSIRegistrationDir = s.CSI.RegistrationDir) ∧
      (s.CSI.RegistrationDir = "" → s.GetCSIRegistrationDir = DefaultCSIRegistrationDir)) ∧
    ((s.CSI.KubeletRegistrationPath ≠ "" →
        s.GetCSIKubeletRegistrationPath = s.CSI.KubeletRegistrationPath) ∧
      (s.CSI.KubeletRegistrationPath = "" →
        s.GetCSIKubeletRegistrationPath = DefaultCSIKubeletRegistrationPath)) ∧
    ((s.CSI.DriverRegistrationMode ≠ "" →
        s.GetCSIDriverRegistrationMode = s.CSI.DriverRegistrationMode) ∧
      (s.CSI.DriverRegistrationMode = "" →
        s.GetCSIDriverRegistrationMode = DefaultCSIDriverRegistrationMode)) ∧
    ((s.CSI.DriverRequiresAttachment ≠ "" →
        s.GetCSIDriverRequiresAttachment = s.CSI.DriverRequiresAttachment) ∧
      (s.CSI.DriverRequiresAttachment = "" →
        s.GetCSIDriverRequiresAttachment = DefaultCSIDriverRequiresAttachment)) := by
  refine ⟨?_, ?_, ?_, ?_, ?_, ?_, ?_, ?_, ?_, ?_, ?_, ?_, ?_, ?_, ?_, ?_, ?_, ?_⟩ <;>
    exact ite_bne_empty _ _

open StorageOSClusterSpec in
/-- C1 at `exampleSpec`: a set namespace is returned as stored, an unset service name
gives the default, and likewise for a set and an unset CSI field. -/
theorem string_accessors_stored_or_default_witness :
    exampleSpec.GetResourceNS = "kube-system" ∧
    exampleSpec.GetServiceName = "storageos" ∧
    exampleSpec.GetCSIDeviceDir = "/devices" ∧
    exampleSpec.GetCSIEndpoint = "unix://var/lib/kubelet/plugins/storageos/csi.sock" := by
  obtain ⟨hns, _, _, _, _, _, hname, _, _, hep, _, _, _, hdev, _⟩ :=
    string_accessors_stored_or_default exampleSpec
  exact ⟨hns.1 (by decide), hname.2 (by decide), hdev.1 (by decide), hep.2 (by decide)⟩

open StorageOSClusterSpec in
/-- C2: the port accessors return 5705 when the stored port is 0 and the stored port,
unchanged, for every other integer, negative or above 65535 included. -/
theorem port_accessors_default_iff_zero (s : StorageOSClusterSpec) :
    (s.Service.ExternalPort = 0 → s.GetServiceExternalPort = 5705) ∧
    (s.Service.ExternalPort ≠ 0 → s.GetServiceExternalPort = s.Service.ExternalPort) ∧
    (s.Service.InternalPort = 0 → s.GetServiceInternalPort = 5705) ∧
    (s.Service.InternalPort ≠ 0 → s.GetServiceInternalPort = s.Service.InternalPort) := by
  refine ⟨?_, ?_, ?_, ?_⟩ <;> intro hp
  · simp [GetServiceExternalPort, DefaultServiceExternalPort, hp]
  · simp [GetServiceExternalPort, hp]
  · simp [GetServiceInternalPort, DefaultServiceInternalPort, hp]
  · simp [GetServiceInternalPort, hp]

open StorageOSClusterSpec in
/-- C2 at `exampleSpec`, whose external port is -1 and whose internal port is 70000, and
at the empty spec, whose ports are 0. -/
theorem port_accessors_default_iff_zero_witness :
    exampleSpec.GetServiceExternalPort = -1 ∧
    exampleSpec.GetServiceInternalPort = 70000 ∧
    ({} : StorageOSClusterSpec).GetServiceExternalPort = 5705 ∧
    ({} : StorageOSClusterSpec).GetServiceInternalPort = 5705 :=
  ⟨(port_accessors_default_iff_zero exampleSpec).2.1 (by decide),
    (port_accessors_default_iff_zero exampleSpec).2.2.2 (by decide),
    (port_accessors_default_iff_zero {}).1 rfl,
    (port_accessors_default_iff_zero {}).2.2.1 rfl⟩

open StorageOSClusterSpec in
/-- C3: on a spec in which only `Join` is set, the 20 defaulting accessors return
exactly the values of the default table. -/
theorem defaults_table_reproduced (tok : String) :
    ({ Join := tok } : StorageOSClusterSpec).GetResourceNS = "storageos" ∧
    ({ Join := tok } : StorageOSClusterSpec).GetServiceName = "storageos" ∧
    ({ Join := tok } : StorageOSClusterSpec).GetServiceType = "ClusterIP" ∧
    ({ Join := tok } : StorageOSClusterSpec).GetServiceExternalPort = 5705 ∧
    ({ Join := tok } : StorageOSClusterSpec).GetServiceInternalPort = 5705 ∧
    ({ Join := tok } : StorageOSClusterSpec).GetIngressHostname = "storageos.local" ∧
    ({ Join := tok } : StorageOSClusterSpec).GetNodeContainerImage = "storageos/node:1.0.0" ∧
    ({ Join := tok } : StorageOSClusterSpec).GetInitContainerImage = "storageos/init:0.1" ∧
    ({ Join := tok } : StorageOSClusterSpec).GetCSIDriverRegistrarImage =
      "quay.io/k8scsi/driver-registrar:v0.4.1" ∧
    ({ Join := tok } : StorageOSClusterSpec).GetCSIExternalProvisionerImage =
      "quay.io/k8scsi/csi-provisioner:v0.4.0" ∧
    ({ Join := tok } : StorageOSClusterSpec).GetCSIExternalAttacherImage =
      "quay.io/k8scsi/csi-attacher:v0.4.0" ∧
    ({ Join := tok } : StorageOSClusterSpec).GetCSIEndpoint =
      "unix://var/lib/kubelet/plugins/storageos/csi.sock" ∧
    ({ Join := tok } : StorageOSClusterSpec).GetCSIRegistrarSocketDir =
      "/var/lib/kubelet/device-plugins/" ∧
    ({ Join := tok } : StorageOSClusterSpec).GetCSIKubeletDir = "/var/lib/kubelet" ∧
    ({ Join := tok } : StorageOSClusterSpec).GetCSIPluginDir =
      "/var/lib/kubelet/plugins/storageos/" ∧
    ({ Join := tok } : StorageOSClusterSpec).GetCSIDeviceDir = "/dev" ∧
    ({ Join := tok } : StorageOSClusterSpec).GetCSIRegistrationDir =
      "/var/lib/kubelet/plugins" ∧
    ({ Join := tok } : StorageOSClusterSpec).GetCSIKubeletRegistrationPath =
      "/var/lib/kubelet/plugins/storageos/csi.sock" ∧
    ({ Join := tok } : StorageOSClusterSpec).GetCSIDriverRegistrationMode = "node-register" ∧
    ({ Join := tok } : StorageOSClusterSpec).GetCSIDriverRequiresAttachment = "true" := by
  refine ⟨?_, ?_, ?_, ?_, ?_, ?_, ?_, ?_, ?_, ?_, ?_, ?_, ?_, ?_, ?_, ?_, ?_, ?_, ?_, ?_⟩ <;>
    rfl

/-! ## The event handler -/

/-- C10: an event whose object is not a StorageOSCluster, deleted or not, is ignored:
`Handle` returns nil, leaves the controller state as it was, does not invoke
`Reconcile` and emits no event. This holds whatever the controller methods do. -/
theorem handle_ignores_other_objects {σ : Type} (h : Handler σ) (st : σ) (ctx : Context)
    (kind : String) (deleted : Bool) :
    (h.Handle st ctx { Object := Object.other kind, Deleted := deleted }).err = none ∧
    (h.Handle st ctx { Object := Object.other kind, Deleted := deleted }).state = st ∧
    (h.Handle st ctx { Object := Object.other kind, Deleted := deleted }).effects = [] :=
  ⟨rfl, rfl, rfl⟩

/-- C7: a delete event for a StorageOSCluster returns nil, invokes neither `Reconcile`
nor the recorder, and the controller state it leaves is the state before or that state
after `ResetCurrentCluster`. This holds whatever the controller methods do. -/
theorem handle_delete_only_resets {σ : Type} (h : Handler σ) (st : σ) (ctx : Context)
    (o : StorageOSCluster) :
    (h.Handle st ctx { Object := Object.storageOSCluster o, Deleted := true }).err = none ∧
    (h.Handle st ctx { Object := Object.storageOSCluster o, Deleted := true }).effects = [] ∧
    ((h.Handle st ctx { Object := Object.storageOSCluster o, Deleted := true }).state = st ∨
     (h.Handle st ctx { Object := Object.storageOSCluster o, Deleted := true }).state =
        h.controller.ResetCurrentCluster st) := by
  cases hc : h.controller.IsCurrentCluster st o <;> simp [Handler.Handle, hc]

/-- C4: when the registry holds an identity `C`, a non-delete event for a cluster of
another identity is denied: `Handle` returns the error with the fixed message, its only
effect is one Warning event with reason FailedCreation and that message on the object
of the event (so `Reconcile` is not invoked), and the registry still holds `C`. -/
theorem handle_denies_other_identity
    (reconcile : StorageOSCluster → EventRecorder → Option GoError) (eRec : EventRecorder)
    (ctx : Context) (C : Identity) (o : StorageOSCluster) (hne : o.identity ≠ C) :
    ((NewHandler eRec (registryController reconcile)).Handle (some C) ctx
        { Object := Object.storageOSCluster o, Deleted := false }).err =
      some { msg := "can't create more than one storageos cluster" } ∧
    ((NewHandler eRec (registryController reconcile)).Handle (some C) ctx
        { Object := Object.storageOSCluster o, Deleted := false }).effects =
      [Effect.recorderEvent eRec o "Warning" "FailedCreation"
        "can't create more than one storageos cluster"] ∧
    ((NewHandler eRec (registryController reconcile)).Handle (some C) ctx
        { Object := Object.storageOSCluster o, Deleted := false }).state = some C := by
  have hC : ¬ C = o.identity := fun hEq => hne hEq.symm
  simp [Handler.Handle, NewHandler, registryController, Registry.isCurrent,
    Registry.setIfNone, hC, fmt.Errorf, GoError.Error, corev1.EventTypeWarning]

/-- C4 on scenario S2: with `(ops, a)` admitted, a create event for `(ops, b)` is denied
with a warning on `b`, and the registry still holds `(ops, a)`. -/
theorem handle_denies_other_identity_witness :
    clusterB.identity ≠ ("ops", "a") ∧
    ((NewHandler exampleRecorder (registryController exampleReconcile)).Handle
        (some ("ops", "a")) background
        { Object := Object.storageOSCluster clusterB, Deleted := false }).err =
      some { msg := "can't create more than one storageos cluster" } ∧
    ((NewHandler exampleRecorder (registryController exampleReconcile)).Handle
        (some ("ops", "a")) background
        { Object := Object.storageOSCluster clusterB, Deleted := false }).effects =
      [Effect.recorderEvent exampleRecorder clusterB "Warning" "FailedCreation"
        "can't create more than one storageos cluster"] ∧
    ((NewHandler exampleRecorder (registryController exampleReconcile)).Handle
        (some ("ops", "a")) background
        { Object := Object.storageOSCluster clusterB, Deleted := false }).state =
      some ("ops", "a") :=
  ⟨by decide,
    handle_denies_other_identity exampleReconcile exampleRecorder background ("ops", "a")
      clusterB (by decide)⟩

/-- C5: when the registry is empty or already holds the identity of `o`, a non-delete
event for `o` is admitted: the registry holds the identity of `o` afterwards, the only
effect of `Handle` is one call of `Reconcile` with `o` and the recorder of the handler,
and `Handle` returns exactly what `Reconcile` returned. -/
theorem handle_admits_current_or_first
    (reconcile : StorageOSCluster → EventRecorder → Option GoError) (eRec : EventRecorder)
    (ctx : Context) (r : Registry) (o : StorageOSCluster)
    (hr : r = none ∨ r = some o.identity) :
    ((NewHandler eRec (registryController reconcile)).Handle r ctx
        { Object := Object.storageOSCluster o, Deleted := false }).state = some o.identity ∧
    ((NewHandler eRec (registryController reconcile)).Handle r ctx
        { Object := Object.storageOSCluster o, Deleted := false }).effects =
      [Effect.reconcile o eRec] ∧
    ((NewHandler eRec (registryController reconcile)).Handle r ctx
        { Object := Object.storageOSCluster o, Deleted := false }).err = reconcile o eRec := by
  rcases hr with rfl | rfl <;>
    simp [Handler.Handle, NewHandler, registryController, Registry.isCurrent,
      Registry.setIfNone]

/-- C5 on scenarios S1 and S3: `(ops, a)` is admitted by the empty registry, where the
reconciler succeeds, and `(ops, b)` is admitted by a registry that holds `(ops, b)`,
where the error of the reconciler is returned as it is. -/
theorem handle_admits_current_or_first_witness :
    (((NewHandler exampleRecorder (registryController exampleReconcile)).Handle none
        background { Object := Object.storageOSCluster clusterA, Deleted := false }).state =
      some ("ops", "a") ∧
     ((NewHandler exampleRecorder (registryController exampleReconcile)).Handle none
        background { Object := Object.storageOSCluster clusterA, Deleted := false }).effects =
      [Effect.reconcile clusterA exampleRecorder] ∧
     ((NewHandler exampleRecorder (registryController exampleReconcile)).Handle none
        background { Object := Object.storageOSCluster clusterA, Deleted := false }).err =
      none) ∧
    ((NewHandler exampleRecorder (registryController exampleReconcile)).Handle
        (some ("ops", "b")) background
        { Object := Object.storageOSCluster clusterB, Deleted := false }).err =
      some { msg := "reconcile failed" } :=
  ⟨handle_admits_current_or_first exampleReconcile exampleRecorder background none clusterA
      (Or.inl rfl),
    (handle_admits_current_or_first exampleReconcile exampleRecorder background
      (some ("ops", "b")) clusterB (Or.inr rfl)).2.2⟩

/-- C8: a delete event for a cluster that is not current (the registry is empty, or
holds another identity) leaves the registry as it was. -/
theorem handle_delete_non_current_unchanged
    (reconcile : StorageOSCluster → EventRecorder → Option GoError) (eRec : EventRecorder)
    (ctx : Context) (r : Registry) (o : StorageOSCluster)
    (hr : r = none ∨ ∃ C, r = some C ∧ C ≠ o.identity) :
    ((NewHandler eRec (registryController reconcile)).Handle r ctx
        { Object := Object.storageOSCluster o, Deleted := true }).state = r := by
  rcases hr with rfl | ⟨C, rfl, hC⟩
  · simp [Handler.Handle, NewHandler, registryController, Registry.isCurrent]
  · simp [Handler.Handle, NewHandler, registryController, Registry.isCurrent, hC]

/-- C8 on scenario S5: with `(ops, a)` admitted, the delete event for `(ops, b)` leaves
the registry holding `(ops, a)`; and on the empty registry it leaves it empty. -/
theorem handle_delete_non_current_unchanged_witness :
    ((NewHandler exampleRecorder (registryController exampleReconcile)).Handle
        (some ("ops", "a")) background
        { Object := Object.storageOSCluster clusterB, Deleted := true }).state =
      some ("ops", "a") ∧
    ((NewHandler exampleRecorder (registryController exampleReconcile)).Handle none
        background { Object := Object.storageOSCluster clusterB, Deleted := true }).state =
      none :=
  ⟨handle_delete_non_current_unchanged exampleReconcile exampleRecorder background
      (some ("ops", "a")) clusterB (Or.inr ⟨("ops", "a"), rfl, by decide⟩),
    handle_delete_non_current_unchanged exampleReconcile exampleRecorder background none
      clusterB (Or.inl rfl)⟩

/-- C9: when the registry holds `C`, the delete event for a cluster of identity `C`
empties it without calling `Reconcile`, so that `isCurrent` is false for every cluster;
and a non-delete event for any cluster `o2` handled next is admitted: the registry then
holds the identity of `o2` and `Reconcile` is invoked with `o2`. -/
theorem handle_delete_current_then_admission
    (reconcile : StorageOSCluster → EventRecorder → Option GoError) (eRec : EventRecorder)
    (ctx ctx2 : Context) (C : Identity) (o o2 : StorageOSCluster) (ho : o.identity = C) :
    ((NewHandler eRec (registryController reconcile)).Handle (some C) ctx
        { Object := Object.storageOSCluster o, Deleted := true }).state = none ∧
    ((NewHandler eRec (registryController reconcile)).Handle (some C) ctx
        { Object := Object.storageOSCluster o, Deleted := true }).effects = [] ∧
    (∀ x : StorageOSCluster,
      Registry.isCurrent
        ((NewHandler eRec (registryController reconcile)).Handle (some C) ctx
          { Object := Object.storageOSCluster o, Deleted := true }).state x = false) ∧
    ((NewHandler eRec (registryController reconcile)).Handle
        ((NewHandler eRec (registryController reconcile)).Handle (some C) ctx
          { Object := Object.storageOSCluster o, Deleted := true }).state ctx2
        { Object := Object.storageOSCluster o2, Deleted := false }).state =
      some o2.identity ∧
    ((NewHandler eRec (registryController reconcile)).Handle
        ((NewHandler eRec (registryController reconcile)).Handle (some C) ctx
          { Object := Object.storageOSCluster o, Deleted := true }).state ctx2
        { Object := Object.storageOSCluster o2, Deleted := false }).effects =
      [Effect.reconcile o2 eRec] := by
  subst ho
  simp [Handler.Handle, NewHandler, registryController, Registry.isCurrent,
    Registry.setIfNone, Registry.reset]

/-- C9 on scenario S4: with `(ops, a)` admitted, the delete event for `(ops, a)` empties
the registry and the following create event for `(ops, b)` admits `b`. -/
theorem handle_delete_current_then_admission_witness :
    ((NewHandler exampleRecorder (registryController exampleReconcile)).Handle
        (some ("ops", "a")) background
        { Object := Object.storageOSCluster clusterA, Deleted := true }).state = none ∧
    ((NewHandler exampleRecorder (registryController exampleReconcile)).Handle
        ((NewHandler exampleRecorder (registryController exampleReconcile)).Handle
          (some ("ops", "a")) background
          { Object := Object.storageOSCluster clusterA, Deleted := true }).state background
        { Object := Object.storageOSCluster clusterB, Deleted := false }).state =
      some ("ops", "b") :=
  ⟨(handle_delete_current_then_admission exampleReconcile exampleRecorder background background
      ("ops", "a") clusterA clusterB rfl).1,
    (handle_delete_current_then_admission exampleReconcile exampleRecorder background background
      ("ops", "a") clusterA clusterB rfl).2.2.2.1⟩

/-! ## Sequences of events -/

/-- Handling no delivery leaves the state as it is. -/
theorem stateAfter_nil {σ : Type} (h : Handler σ) (st : σ) : h.stateAfter st [] = st := rfl

/-- Handling a sequence handles its first delivery and then the rest. -/
theorem stateAfter_cons {σ : Type} (h : Handler σ) (st : σ) (d : Delivery)
    (ds : List Delivery) :
    h.stateAfter st (d :: ds) = h.stateAfter (h.Handle st d.ctx d.event).state ds := rfl

/-- Handling a concatenation handles the first part and then the second. -/
theorem stateAfter_append {σ : Type} (h : Handler σ) (st : σ) (ds es : List Delivery) :
    h.stateAfter st (ds ++ es) = h.stateAfter (h.stateAfter st ds) es := by
  simp [Handler.stateAfter, List.foldl_append]

/-- A registry that holds `C` keeps holding it over every delivery that is not a delete
event for `C`. -/
theorem registry_kept_by_delivery
    (reconcile : StorageOSCluster → EventRecorder → Option GoError) (eRec : EventRecorder)
    (C : Identity) (d : Delivery) (hd : d.isDeleteOf C = false) :
    ((NewHandler eRec (registryController reconcile)).Handle (some C) d.ctx d.event).state =
      some C := by
  obtain ⟨ctx, obj, deleted⟩ := d
  cases obj with
  | other kind => rfl
  | storageOSCluster o =>
    cases deleted with
    | false =>
      by_cases hC : C = o.identity <;>
        simp [Handler.Handle, NewHandler, registryController, Registry.isCurrent,
          Registry.setIfNone, hC]
    | true =>
      have hne : ¬ C = o.identity := by
        intro hEq
        simp [Delivery.isDeleteOf, hEq] at hd
      simp [Handler.Handle, NewHandler, registryController, Registry.isCurrent, hne]

/-- A registry that holds `C` keeps holding it over a sequence of deliveries none of
which is a delete event for `C`. -/
theorem registry_kept_by_deliveries
    (reconcile : StorageOSCluster → EventRecorder → Option GoError) (eRec : EventRecorder)
    (C : Identity) (ds : List Delivery) (hds : ∀ d ∈ ds, d.isDeleteOf C = false) :
    (NewHandler eRec (registryController reconcile)).stateAfter (some C) ds = some C := by
  induction ds with
  | nil => rfl
  | cons d ds ih =>
    rw [stateAfter_cons,
      registry_kept_by_delivery reconcile eRec C d (hds d (List.mem_cons_self d ds))]
    exact ih (fun e he => hds e (List.mem_cons_of_mem d he))

/-- The empty registry admits a non-delete cluster event. -/
theorem registry_empty_admits
    (reconcile : StorageOSCluster → EventRecorder → Option GoError) (eRec : EventRecorder)
    (ctx : Context) (o : StorageOSCluster) :
    ((NewHandler eRec (registryController reconcile)).Handle none ctx
        { Object := Object.storageOSCluster o, Deleted := false }).state = some o.identity := by
  simp [Handler.Handle, NewHandler, registryController, Registry.isCurrent,
    Registry.setIfNone]

/-- When the registry holds `C` after a delivery, either it held `C` before and the
delivery is not a delete event for `C`, or it was empty and the delivery is a non-delete
event for a cluster of identity `C`. -/
theorem registry_holds_after_delivery
    (reconcile : StorageOSCluster → EventRecorder → Option GoError) (eRec : EventRecorder)
    (r : Registry) (C : Identity) (d : Delivery)
    (hd : ((NewHandler eRec (registryController reconcile)).Handle r d.ctx d.event).state =
      some C) :
    (r = some C ∧ d.isDeleteOf C = false) ∨
    (r = none ∧ ∃ o : StorageOSCluster,
      d.event = { Object := Object.storageOSCluster o, Deleted := false } ∧
      o.identity = C) := by
  obtain ⟨ctx, obj, deleted⟩ := d
  cases obj with
  | other kind =>
    left
    exact ⟨hd, rfl⟩
  | storageOSCluster o =>
    cases r with
    | none =>
      cases deleted with
      | false =>
        right
        refine ⟨rfl, o, rfl, ?_⟩
        simpa [Handler.Handle, NewHandler, registryController, Registry.isCurrent,
          Registry.setIfNone] using hd
      | true =>
        simp [Handler.Handle, NewHandler, registryController, Registry.isCurrent] at hd
    | some D =>
      cases deleted with
      | false =>
        left
        have hD : D = C := by
          by_cases hDo : D = o.identity <;>
            simpa [Handler.Handle, NewHandler, registryController, Registry.isCurrent,
              Registry.setIfNone, hDo] using hd
        subst hD
        exact ⟨rfl, by simp [Delivery.isDeleteOf]⟩
      | true =>
        by_cases hDo : D = o.identity
        · simp [Handler.Handle, NewHandler, registryController, Registry.isCurrent,
            Registry.reset, hDo] at hd
        · have hD : D = C := by
            simpa [Handler.Handle, NewHandler, registryController, Registry.isCurrent,
              hDo] using hd
          subst hD
          left
          refine ⟨rfl, ?_⟩
          have hoD : ¬ o.identity = D := fun hEq => hDo hEq.symm
          simp [Delivery.isDeleteOf, hoD]

/-- The registry holds `C` after a sequence handled from the empty registry only if
the sequence has a non-delete event for a cluster of identity `C` that arrived while the
registry was empty and that no delete event for `C` follows. -/
theorem registry_holder_has_admission
    (reconcile : StorageOSCluster → EventRecorder → Option GoError) (eRec : EventRecorder)
    (C : Identity) (ds : List Delivery)
    (hds : (NewHandler eRec (registryController reconcile)).stateAfter none ds = some C) :
    ∃ (pre : List Delivery) (ctx : Context) (o : StorageOSCluster) (post : List Delivery),
      ds = pre ++
        { ctx := ctx, event := { Object := Object.storageOSCluster o, Deleted := false } } ::
          post ∧
      (NewHandler eRec (registryController reconcile)).stateAfter none pre = none ∧
      o.identity = C ∧ ∀ d ∈ post, d.isDeleteOf C = false := by
  induction ds using List.reverseRecOn with
  | nil => simp [stateAfter_nil] at hds
  | append_singleton ds d ih =>
    rw [stateAfter_append, stateAfter_cons, stateAfter_nil] at hds
    rcases registry_holds_after_delivery reconcile eRec _ C d hds with
      ⟨hprev, hd⟩ | ⟨hprev, o, hev, ho⟩
    · obtain ⟨pre, ctx, o, post, hsplit, hpre, ho, hpost⟩ := ih hprev
      refine ⟨pre, ctx, o, post ++ [d], ?_, hpre, ho, ?_⟩
      · rw [hsplit]
        simp
      · intro e he
        rcases List.mem_append.mp he with he | he
        · exact hpost e he
        · rw [List.mem_singleton.mp he]
          exact hd
    · refine ⟨ds, d.ctx, o, [], ?_, hprev, ho, ?_⟩
      · rw [← hev]
      · intro e he
        cases he

/-- The converse: an admission from the empty registry that no delete event for its
identity follows leaves the registry holding that identity. -/
theorem registry_admission_holds
    (reconcile : StorageOSCluster → EventRecorder → Option GoError) (eRec : EventRecorder)
    (pre post : List Delivery) (ctx : Context) (o : StorageOSCluster)
    (hpre : (NewHandler eRec (registryController reconcile)).stateAfter none pre = none)
    (hpost : ∀ d ∈ post, d.isDeleteOf o.identity = false) :
    (NewHandler eRec (registryController reconcile)).stateAfter none
      (pre ++
        { ctx := ctx, event := { Object := Object.storageOSCluster o, Deleted := false } } ::
          post) = some o.identity := by
  rw [stateAfter_append, stateAfter_cons, hpre, registry_empty_admits]
  exact registry_kept_by_deliveries reconcile eRec o.identity post hpost

/-- Of two admissions from the empty registry in one sequence, each followed by no
delete event for its identity, the first one cannot come strictly earlier. -/
theorem registry_admission_not_earlier
    (reconcile : StorageOSCluster → EventRecorder → Option GoError) (eRec : EventRecorder)
    (pre post mid post2 : List Delivery) (ctx : Context) (o : StorageOSCluster)
    (d d2 : Delivery)
    (hd : d = { ctx := ctx, event := { Object := Object.storageOSCluster o, Deleted := false } })
    (hpre : (NewHandler eRec (registryController reconcile)).stateAfter none pre = none)
    (hpost : ∀ e ∈ post, e.isDeleteOf o.identity = false)
    (hsplit : post = mid ++ d2 :: post2)
    (hpre2 : (NewHandler eRec (registryController reconcile)).stateAfter none
      (pre ++ d :: mid) = none) : False := by
  subst hd
  have hmid : ∀ e ∈ mid, e.isDeleteOf o.identity = false := by
    intro e he
    apply hpost e
    rw [hsplit]
    exact List.mem_append_left _ he
  rw [registry_admission_holds reconcile eRec pre mid ctx o hpre hmid] at hpre2
  cases hpre2

/-- In one sequence there is at most one admission from the empty registry that no
delete event for its identity follows. -/
theorem registry_admission_unique
    (reconcile : StorageOSCluster → EventRecorder → Option GoError) (eRec : EventRecorder)
    (ds pre post pre2 post2 : List Delivery) (ctx ctx2 : Context) (o o2 : StorageOSCluster)
    (h1 : ds = pre ++
      { ctx := ctx, event := { Object := Object.storageOSCluster o, Deleted := false } } ::
        post)
    (hpre : (NewHandler eRec (registryController reconcile)).stateAfter none pre = none)
    (hpost : ∀ e ∈ post, e.isDeleteOf o.identity = false)
    (h2 : ds = pre2 ++
      { ctx := ctx2, event := { Object := Object.storageOSCluster o2, Deleted := false } } ::
        post2)
    (hpre2 : (NewHandler eRec (registryController reconcile)).stateAfter none pre2 = none)
    (hpost2 : ∀ e ∈ post2, e.isDeleteOf o2.identity = false) :
    pre = pre2 := by
  have hEq := h1.symm.trans h2
  rcases List.append_eq_append_iff.mp hEq with ⟨mid, hp, hrest⟩ | ⟨mid, hp, hrest⟩
  · cases mid with
    | nil => simpa using hp.symm
    | cons x mid =>
      exfalso
      simp only [List.cons_append, List.cons.injEq] at hrest
      obtain ⟨hx, hrest⟩ := hrest
      subst hp
      exact registry_admission_not_earlier reconcile eRec pre post mid post2 ctx o x _
        hx.symm hpre hpost hrest hpre2
  · cases mid with
    | nil => simpa using hp
    | cons x mid =>
      exfalso
      simp only [List.cons_append, List.cons.injEq] at hrest
      obtain ⟨hx, hrest⟩ := hrest
      subst hp
      exact registry_admission_not_earlier reconcile eRec pre2 post2 mid post ctx2 o2 x _
        hx.symm hpre2 hpost2 hrest hpre

/-- C6, first writer wins. After every finite sequence of deliveries handled from the
empty registry: (1) at most one identity is current; (2) the registry holds `C` exactly
when the sequence has a non-delete event for a cluster of identity `C` that arrived
while the registry was empty and that no delete event for `C` follows; (3) there is only
one such event in the sequence, so it is the earliest; (4) a further non-delete event,
of whatever identity, leaves the held identity in place. -/
theorem first_writer_wins
    (reconcile : StorageOSCluster → EventRecorder → Option GoError) (eRec : EventRecorder)
    (ds : List Delivery) :
    (∀ x y : StorageOSCluster,
      Registry.isCurrent
        ((NewHandler eRec (registryController reconcile)).stateAfter none ds) x = true →
      Registry.isCurrent
        ((NewHandler eRec (registryController reconcile)).stateAfter none ds) y = true →
      x.identity = y.identity) ∧
    (∀ C : Identity,
      (NewHandler eRec (registryController reconcile)).stateAfter none ds = some C ↔
      ∃ (pre : List Delivery) (ctx : Context) (o : StorageOSCluster) (post : List Delivery),
        ds = pre ++
          { ctx := ctx,
            event := { Object := Object.storageOSCluster o, Deleted := false } } :: post ∧
        (NewHandler eRec (registryController reconcile)).stateAfter none pre = none ∧
        o.identity = C ∧ ∀ d ∈ post, d.isDeleteOf C = false) ∧
    (∀ (pre post pre2 post2 : List Delivery) (ctx ctx2 : Context) (o o2 : StorageOSCluster),
      ds = pre ++
        { ctx := ctx,
          event := { Object := Object.storageOSCluster o, Deleted := false } } :: post →
      (NewHandler eRec (registryController reconcile)).stateAfter none pre = none →
      (∀ d ∈ post, d.isDeleteOf o.identity = false) →
      ds = pre2 ++
        { ctx := ctx2,
          event := { Object := Object.storageOSCluster o2, Deleted := false } } :: post2 →
      (NewHandler eRec (registryController reconcile)).stateAfter none pre2 = none →
      (∀ d ∈ post2, d.isDeleteOf o2.identity = false) →
      pre = pre2) ∧
    (∀ (C : Identity) (d : Delivery),
      (NewHandler eRec (registryController reconcile)).stateAfter none ds = some C →
      d.event.Deleted = false →
      (NewHandler eRec (registryController reconcile)).stateAfter none (ds ++ [d]) =
        some C) := by
  refine ⟨?_, ?_, ?_, ?_⟩
  · intro x y hx hy
    cases hst : (NewHandler eRec (registryController reconcile)).stateAfter none ds with
    | none => simp [hst, Registry.isCurrent] at hx
    | some C =>
      rw [hst] at hx hy
      simp only [Registry.isCurrent, beq_iff_eq] at hx hy
      exact hx.symm.trans hy
  · intro C
    constructor
    · exact registry_holder_has_admission reconcile eRec C ds
    · rintro ⟨pre, ctx, o, post, hsplit, hpre, ho, hpost⟩
      subst ho
      rw [hsplit]
      exact registry_admission_holds reconcile eRec pre post ctx o hpre hpost
  · intro pre post pre2 post2 ctx ctx2 o o2 h1 hpre hpost h2 hpre2 hpost2
    exact registry_admission_unique reconcile eRec ds pre post pre2 post2 ctx ctx2 o o2
      h1 hpre hpost h2 hpre2 hpost2
  · intro C d hst hd
    rw [stateAfter_append, hst, stateAfter_cons, stateAfter_nil]
    apply registry_kept_by_delivery
    obtain ⟨ctx, obj, deleted⟩ := d
    cases obj with
    | other kind => rfl
    | storageOSCluster o =>
      simp only at hd
      simp [Delivery.isDeleteOf, hd]

/-- C6 on scenarios S1, S2 and S5 in a row: `(ops, a)` is admitted first and is still
held after the create and the delete of `(ops, b)`, and one more create event for
`(ops, b)` does not replace it. -/
theorem first_writer_wins_witness :
    (NewHandler exampleRecorder (registryController exampleReconcile)).stateAfter none
      exampleDeliveries = some ("ops", "a") ∧
    (NewHandler exampleRecorder (registryController exampleReconcile)).stateAfter none
      (exampleDeliveries ++ [createOf clusterB]) = some ("ops", "a") :=
  ⟨((first_writer_wins exampleReconcile exampleRecorder exampleDeliveries).2.1
      ("ops", "a")).mpr
      ⟨[], background, clusterA, [createOf clusterB, deleteOf clusterB], rfl, rfl, rfl,
        by decide⟩,
    (first_writer_wins exampleReconcile exampleRecorder exampleDeliveries).2.2.2
      ("ops", "a") (createOf clusterB) rfl rfl⟩

/-! ## Identity, cancellation and re-delivery -/

/-- C11: identity is the pair (namespace, name). Once `o1` has been admitted, a
non-delete event for any `o2` of the same namespace and name, whatever else differs, is
admitted: the only effect is the call of `Reconcile` with `o2`, whose result is
returned, and the registry is unchanged; and a non-delete event for any `o3` that
differs from `o1` in namespace or in name is denied with the warning on `o3`. -/
theorem identity_is_namespace_and_name
    (reconcile : StorageOSCluster → EventRecorder → Option GoError) (eRec : EventRecorder)
    (ctx ctx2 : Context) (r : Registry) (o1 o2 o3 : StorageOSCluster)
    (hr : r = none ∨ r = some o1.identity)
    (hns : o2.objectMeta.Namespace = o1.objectMeta.Namespace)
    (hname : o2.objectMeta.Name = o1.objectMeta.Name)
    (hdiff : o3.objectMeta.Namespace ≠ o1.objectMeta.Namespace ∨
      o3.objectMeta.Name ≠ o1.objectMeta.Name) :
    ((NewHandler eRec (registryController reconcile)).Handle
        ((NewHandler eRec (registryController reconcile)).Handle r ctx
          { Object := Object.storageOSCluster o1, Deleted := false }).state ctx2
        { Object := Object.storageOSCluster o2, Deleted := false }).effects =
      [Effect.reconcile o2 eRec] ∧
    ((NewHandler eRec (registryController reconcile)).Handle
        ((NewHandler eRec (registryController reconcile)).Handle r ctx
          { Object := Object.storageOSCluster o1, Deleted := false }).state ctx2
        { Object := Object.storageOSCluster o2, Deleted := false }).err = reconcile o2 eRec ∧
    ((NewHandler eRec (registryController reconcile)).Handle
        ((NewHandler eRec (registryController reconcile)).Handle r ctx
          { Object := Object.storageOSCluster o1, Deleted := false }).state ctx2
        { Object := Object.storageOSCluster o2, Deleted := false }).state =
      some (o1.objectMeta.Namespace, o1.objectMeta.Name) ∧
    ((NewHandler eRec (registryController reconcile)).Handle
        ((NewHandler eRec (registryController reconcile)).Handle r ctx
          { Object := Object.storageOSCluster o1, Deleted := false }).state ctx2
        { Object := Object.storageOSCluster o3, Deleted := false }).effects =
      [Effect.recorderEvent eRec o3 "Warning" "FailedCreation"
        "can't create more than one storageos cluster"] ∧
    ((NewHandler eRec (registryController reconcile)).Handle
        ((NewHandler eRec (registryController reconcile)).Handle r ctx
          { Object := Object.storageOSCluster o1, Deleted := false }).state ctx2
        { Object := Object.storageOSCluster o3, Deleted := false }).err =
      some { msg := "can't create more than one storageos cluster" } := by
  have h2 : o2.identity = o1.identity := by
    simp [StorageOSCluster.identity, hns, hname]
  have h3 : ¬ o1.identity = o3.identity := by
    intro hEq
    simp only [StorageOSCluster.identity, Prod.mk.injEq] at hEq
    rcases hdiff with hd | hd
    · exact hd hEq.1.symm
    · exact hd hEq.2.symm
  have h1 : ((NewHandler eRec (registryController reconcile)).Handle r ctx
      { Object := Object.storageOSCluster o1, Deleted := false }).state = some o1.identity := by
    rcases hr with rfl | rfl <;>
      simp [Handler.Handle, NewHandler, registryController, Registry.isCurrent,
        Registry.setIfNone]
  rw [h1]
  refine ⟨?_, ?_, ?_, ?_, ?_⟩
  · simp [Handler.Handle, NewHandler, registryController, Registry.isCurrent,
      Registry.setIfNone, h2]
  · simp [Handler.Handle, NewHandler, registryController, Registry.isCurrent,
      Registry.setIfNone, h2]
  · have h4 : ((NewHandler eRec (registryController reconcile)).Handle (some o1.identity)
        ctx2 { Object := Object.storageOSCluster o2, Deleted := false }).state =
        some o1.identity := by
      simp [Handler.Handle, NewHandler, registryController, Registry.isCurrent,
        Registry.setIfNone, h2]
    rw [h4]
    rfl
  · simp [Handler.Handle, NewHandler, registryController, Registry.isCurrent,
      Registry.setIfNone, h3, fmt.Errorf, GoError.Error, corev1.EventTypeWarning]
  · simp [Handler.Handle, NewHandler, registryController, Registry.isCurrent,
      Registry.setIfNone, h3, fmt.Errorf]

/-- C11 on scenarios S1, S3 and S2: after `(ops, a)` has been admitted by the empty
registry, its later revision is reconciled and `(ops, b)` is denied. -/
theorem identity_is_namespace_and_name_witness :
    ((NewHandler exampleRecorder (registryController exampleReconcile)).Handle
        ((NewHandler exampleRecorder (registryController exampleReconcile)).Handle none
          background { Object := Object.storageOSCluster clusterA, Deleted := false }).state
        background
        { Object := Object.storageOSCluster clusterAUpdated, Deleted := false }).effects =
      [Effect.reconcile clusterAUpdated exampleRecorder] ∧
    ((NewHandler exampleRecorder (registryController exampleReconcile)).Handle
        ((NewHandler exampleRecorder (registryController exampleReconcile)).Handle none
          background { Object := Object.storageOSCluster clusterA, Deleted := false }).state
        background
        { Object := Object.storageOSCluster clusterB, Deleted := false }).err =
      some { msg := "can't create more than one storageos cluster" } :=
  ⟨(identity_is_namespace_and_name exampleReconcile exampleRecorder background background
      none clusterA clusterAUpdated clusterB (Or.inl rfl) rfl rfl
      (Or.inr (by decide))).1,
    (identity_is_namespace_and_name exampleReconcile exampleRecorder background background
      none clusterA clusterAUpdated clusterB (Or.inl rfl) rfl rfl
      (Or.inr (by decide))).2.2.2.2⟩

/-- A string accessor whose default is not empty never returns the empty string. -/
theorem ite_bne_empty_ne (x d : String) (hd : d ≠ "") :
    (if x != "" then x else d) ≠ "" := by
  by_cases hx : x = ""
  · simpa [hx] using hd
  · simp [hx]

open StorageOSClusterSpec in
/-- C12: whatever the spec stores, none of the 18 string accessors returns the empty
string and neither port accessor returns 0. -/
theorem accessors_never_empty (s : StorageOSClusterSpec) :
    s.GetResourceNS ≠ "" ∧ s.GetNodeContainerImage ≠ "" ∧ s.GetInitContainerImage ≠ "" ∧
    s.GetCSIDriverRegistrarImage ≠ "" ∧ s.GetCSIExternalProvisionerImage ≠ "" ∧
    s.GetCSIExternalAttacherImage ≠ "" ∧ s.GetServiceName ≠ "" ∧ s.GetServiceType ≠ "" ∧
    s.GetIngressHostname ≠ "" ∧ s.GetCSIEndpoint ≠ "" ∧ s.GetCSIRegistrarSocketDir ≠ "" ∧
    s.GetCSIKubeletDir ≠ "" ∧ s.GetCSIPluginDir ≠ "" ∧ s.GetCSIDeviceDir ≠ "" ∧
    s.GetCSIRegistrationDir ≠ "" ∧ s.GetCSIKubeletRegistrationPath ≠ "" ∧
    s.GetCSIDriverRegistrationMode ≠ "" ∧ s.GetCSIDriverRequiresAttachment ≠ "" ∧
    s.GetServiceExternalPort ≠ 0 ∧ s.GetServiceInternalPort ≠ 0 := by
  refine ⟨?_, ?_, ?_, ?_, ?_, ?_, ?_, ?_, ?_, ?_, ?_, ?_, ?_, ?_, ?_, ?_, ?_, ?_, ?_, ?_⟩
  case refine_19 =>
    by_cases hp : s.Service.ExternalPort = 0 <;>
      simp [GetServiceExternalPort, DefaultServiceExternalPort, hp]
  case refine_20 =>
    by_cases hp : s.Service.InternalPort = 0 <;>
      simp [GetServiceInternalPort, DefaultServiceInternalPort, hp]
  all_goals exact ite_bne_empty_ne _ _ (by decide)

open StorageOSClusterSpec in
/-- C15 fails as stated: on a spec that stores `maybe`, the effective value is `maybe`,
which is neither of the two literals. -/
theorem requires_attachment_not_two_valued :
    maybeSpec.GetCSIDriverRequiresAttachment = "maybe" ∧
    ¬ (maybeSpec.GetCSIDriverRequiresAttachment = "true" ∨
       maybeSpec.GetCSIDriverRequiresAttachment = "false") := by
  decide

open StorageOSClusterSpec in
/-- C15 as amended: the effective value is one of the literals `true` and `false`
exactly when the stored field is empty, `true` or `false`; any other stored string is
returned as it is; and the effective value is the literal `true` when the stored field
is empty. -/
theorem requires_attachment_literal_iff (s : StorageOSClusterSpec) :
    ((s.GetCSIDriverRequiresAttachment = "true" ∨
        s.GetCSIDriverRequiresAttachment = "false") ↔
      (s.CSI.DriverRequiresAttachment = "" ∨ s.CSI.DriverRequiresAttachment = "true" ∨
        s.CSI.DriverRequiresAttachment = "false")) ∧
    (s.CSI.DriverRequiresAttachment ≠ "" →
      s.GetCSIDriverRequiresAttachment = s.CSI.DriverRequiresAttachment) ∧
    (s.CSI.DriverRequiresAttachment = "" → s.GetCSIDriverRequiresAttachment = "true") := by
  by_cases hx : s.CSI.DriverRequiresAttachment = ""
  · simp [GetCSIDriverRequiresAttachment, DefaultCSIDriverRequiresAttachment, hx]
  · simp [GetCSIDriverRequiresAttachment, hx]

open StorageOSClusterSpec in
/-- C15 as amended, at the spec that stores `false` and at the spec that stores
nothing, whose effective value is `true`. -/
theorem requires_attachment_literal_iff_witness :
    exampleSpec.GetCSIDriverRequiresAttachment = "false" ∧
    (({} : StorageOSClusterSpec).GetCSIDriverRequiresAttachment = "true" ∨
      ({} : StorageOSClusterSpec).GetCSIDriverRequiresAttachment = "false") ∧
    ({} : StorageOSClusterSpec).GetCSIDriverRequiresAttachment = "true" :=
  ⟨(requires_attachment_literal_iff exampleSpec).2.1 (by decide),
    (requires_attachment_literal_iff {}).1.mpr (Or.inl rfl),
    (requires_attachment_literal_iff {}).2.2 rfl⟩

/-- C14 fails as stated: on the admitted create event for `(ops, a)`, `Handle` under a
cancelled context calls `Reconcile` with the object and the recorder only, returns nil,
and has the same registry, error and effects as under a context that is not
cancelled. -/
theorem cancelled_context_same_outcome :
    ((NewHandler exampleRecorder (registryController exampleReconcile)).Handle none
        cancelledContext
        { Object := Object.storageOSCluster clusterA, Deleted := false }).effects =
      [Effect.reconcile clusterA exampleRecorder] ∧
    ((NewHandler exampleRecorder (registryController exampleReconcile)).Handle none
        cancelledContext
        { Object := Object.storageOSCluster clusterA, Deleted := false }).err = none ∧
    ((NewHandler exampleRecorder (registryController exampleReconcile)).Handle none
        cancelledContext
        { Object := Object.storageOSCluster clusterA, Deleted := false }).err =
      ((NewHandler exampleRecorder (registryController exampleReconcile)).Handle none
        background { Object := Object.storageOSCluster clusterA, Deleted := false }).err ∧
    ((NewHandler exampleRecorder (registryController exampleReconcile)).Handle none
        cancelledContext
        { Object := Object.storageOSCluster clusterA, Deleted := false }).effects =
      ((NewHandler exampleRecorder (registryController exampleReconcile)).Handle none
        background { Object := Object.storageOSCluster clusterA, Deleted := false }).effects ∧
    ((NewHandler exampleRecorder (registryController exampleReconcile)).Handle none
        cancelledContext
        { Object := Object.storageOSCluster clusterA, Deleted := false }).state =
      ((NewHandler exampleRecorder (registryController exampleReconcile)).Handle none
        background { Object := Object.storageOSCluster clusterA, Deleted := false }).state := by
  decide

/-- C14 as amended: `Handle` does not pass its context on. Whatever the controller
methods do, the state it leaves, the error it returns and its effects, the arguments of
the `Reconcile` call among them, are the same under every two contexts; so a cancelled
context cannot alter the registry. -/
theorem handle_ignores_context {σ : Type} (h : Handler σ) (st : σ) (ctx ctx2 : Context)
    (event : Event) :
    (h.Handle st ctx event).state = (h.Handle st ctx2 event).state ∧
    (h.Handle st ctx event).err = (h.Handle st ctx2 event).err ∧
    (h.Handle st ctx event).effects = (h.Handle st ctx2 event).effects :=
  ⟨rfl, rfl, rfl⟩

/-- When `Handle` calls `Reconcile`, the event is a non-delete event for the object
passed, the recorder passed is that of the handler, and the registry held the identity
of that object when the call was made (the registry left by `setIfNone`) and holds it
after the call. -/
theorem reconcile_call_is_for_current
    (reconcile : StorageOSCluster → EventRecorder → Option GoError) (eRec : EventRecorder)
    (r : Registry) (ctx : Context) (event : Event) (o : StorageOSCluster)
    (rec : EventRecorder)
    (hcall : Effect.reconcile o rec ∈
      ((NewHandler eRec (registryController reconcile)).Handle r ctx event).effects) :
    event = { Object := Object.storageOSCluster o, Deleted := false } ∧ rec = eRec ∧
    Registry.setIfNone r o = some o.identity ∧
    ((NewHandler eRec (registryController reconcile)).Handle r ctx event).state =
      some o.identity := by
  obtain ⟨obj, deleted⟩ := event
  cases obj with
  | other kind => simp [Handler.Handle] at hcall
  | storageOSCluster o2 =>
    cases deleted with
    | true =>
      cases hc : Registry.isCurrent r o2 <;>
        simp [Handler.Handle, NewHandler, registryController, hc] at hcall
    | false =>
      cases r with
      | none =>
        simp [Handler.Handle, NewHandler, registryController, Registry.isCurrent,
          Registry.setIfNone] at hcall
        obtain ⟨rfl, rfl⟩ := hcall
        simp [Handler.Handle, NewHandler, registryController, Registry.isCurrent,
          Registry.setIfNone]
      | some C =>
        by_cases hC : C = o2.identity
        · simp [Handler.Handle, NewHandler, registryController, Registry.isCurrent,
            Registry.setIfNone, hC] at hcall
          obtain ⟨rfl, rfl⟩ := hcall
          simp [Handler.Handle, NewHandler, registryController, Registry.isCurrent,
            Registry.setIfNone, hC]
        · simp [Handler.Handle, NewHandler, registryController, Registry.isCurrent,
            Registry.setIfNone, hC] at hcall

/-- C16: after every finite sequence `pre` of deliveries handled from the empty
registry, each call of `Reconcile` that `Handle` makes on the next delivery `d` is for
the current cluster: `d` is a non-delete event for the object passed, and the registry
holds exactly the identity of that object when `Reconcile` is invoked and when `Handle`
returns. -/
theorem reconcile_only_for_current
    (reconcile : StorageOSCluster → EventRecorder → Option GoError) (eRec : EventRecorder)
    (pre : List Delivery) (d : Delivery) (o : StorageOSCluster) (rec : EventRecorder)
    (hcall : Effect.reconcile o rec ∈
      ((NewHandler eRec (registryController reconcile)).Handle
        ((NewHandler eRec (registryController reconcile)).stateAfter none pre)
        d.ctx d.event).effects) :
    d.event = { Object := Object.storageOSCluster o, Deleted := false } ∧
    Registry.setIfNone
      ((NewHandler eRec (registryController reconcile)).stateAfter none pre) o =
        some (o.objectMeta.Namespace, o.objectMeta.Name) ∧
    Registry.isCurrent
      (Registry.setIfNone
        ((NewHandler eRec (registryController reconcile)).stateAfter none pre) o) o = true ∧
    (NewHandler eRec (registryController reconcile)).stateAfter none (pre ++ [d]) =
      some (o.objectMeta.Namespace, o.objectMeta.Name) := by
  obtain ⟨hev, _, hset, hst⟩ :=
    reconcile_call_is_for_current reconcile eRec _ d.ctx d.event o rec hcall
  refine ⟨hev, hset, ?_, ?_⟩
  · rw [hset]
    simp [Registry.isCurrent]
  · rw [stateAfter_append, stateAfter_cons, stateAfter_nil, hst]
    rfl

/-- C16 on scenario S4 followed by a create: after create and delete of `(ops, a)`, the
create event for `(ops, b)` calls `Reconcile` with `b` while the registry holds
`(ops, b)`. -/
theorem reconcile_only_for_current_witness :
    Registry.setIfNone
      ((NewHandler exampleRecorder (registryController exampleReconcile)).stateAfter none
        [createOf clusterA, deleteOf clusterA]) clusterB = some ("ops", "b") ∧
    (NewHandler exampleRecorder (registryController exampleReconcile)).stateAfter none
      ([createOf clusterA, deleteOf clusterA] ++ [createOf clusterB]) = some ("ops", "b") :=
  ⟨(reconcile_only_for_current exampleReconcile exampleRecorder
      [createOf clusterA, deleteOf clusterA] (createOf clusterB) clusterB exampleRecorder
      (by decide)).2.1,
    (reconcile_only_for_current exampleReconcile exampleRecorder
      [createOf clusterA, deleteOf clusterA] (createOf clusterB) clusterB exampleRecorder
      (by decide)).2.2.2⟩

/-- C17: the registry transition of `Handle` is idempotent per event. Handling an event
a second time right after the first leaves the registry as the first handling left it,
and the second handling makes the same calls and so has the same classification
(admitted, denied or ignored) as the first. -/
theorem handle_idempotent_per_event
    (reconcile : StorageOSCluster → EventRecorder → Option GoError) (eRec : EventRecorder)
    (ctx ctx2 : Context) (r : Registry) (event : Event) :
    ((NewHandler eRec (registryController reconcile)).Handle
        ((NewHandler eRec (registryController reconcile)).Handle r ctx event).state
        ctx2 event).state =
      ((NewHandler eRec (registryController reconcile)).Handle r ctx event).state ∧
    ((NewHandler eRec (registryController reconcile)).Handle
        ((NewHandler eRec (registryController reconcile)).Handle r ctx event).state
        ctx2 event).effects =
      ((NewHandler eRec (registryController reconcile)).Handle r ctx event).effects ∧
    ((NewHandler eRec (registryController reconcile)).Handle
        ((NewHandler eRec (registryController reconcile)).Handle r ctx event).state
        ctx2 event).classification =
      ((NewHandler eRec (registryController reconcile)).Handle r ctx event).classification := by
  have key : ((NewHandler eRec (registryController reconcile)).Handle
        ((NewHandler eRec (registryController reconcile)).Handle r ctx event).state
        ctx2 event).state =
      ((NewHandler eRec (registryController reconcile)).Handle r ctx event).state ∧
    ((NewHandler eRec (registryController reconcile)).Handle
        ((NewHandler eRec (registryController reconcile)).Handle r ctx event).state
        ctx2 event).effects =
      ((NewHandler eRec (registryController reconcile)).Handle r ctx event).effects := by
    obtain ⟨obj, deleted⟩ := event
    cases obj with
    | other kind => exact ⟨rfl, rfl⟩
    | storageOSCluster o =>
      cases r with
      | none =>
        cases deleted <;>
          simp [Handler.Handle, NewHandler, registryController, Registry.isCurrent,
            Registry.setIfNone, Registry.reset]
      | some C =>
        by_cases hC : C = o.identity <;> cases deleted <;>
          simp [Handler.Handle, NewHandler, registryController, Registry.isCurrent,
            Registry.setIfNone, Registry.reset, hC]
  exact ⟨key.1, key.2, by simp only [HandleResult.classification, key.2]⟩

/-- C17 on scenario S2 delivered twice: with `(ops, a)` admitted, the create event for
`(ops, b)` is denied, and denied again on re-delivery, with `(ops, a)` still held. -/
theorem handle_idempotent_per_event_witness :
    ((NewHandler exampleRecorder (registryController exampleReconcile)).Handle
        (some ("ops", "a")) background
        { Object := Object.storageOSCluster clusterB, Deleted := false }).classification =
      Classification.denied ∧
    ((NewHandler exampleRecorder (registryController exampleReconcile)).Handle
        ((NewHandler exampleRecorder (registryController exampleReconcile)).Handle
          (some ("ops", "a")) background
          { Object := Object.storageOSCluster clusterB, Deleted := false }).state
        background
        { Object := Object.storageOSCluster clusterB, Deleted := false }).classification =
      Classification.denied ∧
    ((NewHandler exampleRecorder (registryController exampleReconcile)).Handle
        ((NewHandler exampleRecorder (registryController exampleReconcile)).Handle
          (some ("ops", "a")) background
          { Object := Object.storageOSCluster clusterB, Deleted := false }).state
        background
        { Object := Object.storageOSCluster clusterB, Deleted := false }).state =
      some ("ops", "a") :=
  ⟨by decide,
    (handle_idempotent_per_event exampleReconcile exampleRecorder background background
      (some ("ops", "a"))
      { Object := Object.storageOSCluster clusterB, Deleted := false }).2.2.trans
      (by decide),
    (handle_idempotent_per_event exampleReconcile exampleRecorder background background
      (some ("ops", "a"))
      { Object := Object.storageOSCluster clusterB, Deleted := false }).1.trans (by decide)⟩

/-! ## Two calls of `Handle` at once -/

/-- The steps are `Handle`: a call run alone returns within three steps, with the
state, the error and the effects of `Handle`. -/
theorem runCall_eq_handle {σ : Type} (h : Handler σ) (st : σ) (d : Delivery) :
    h.runCall 3 (st, CallState.start d) =
      ((h.Handle st d.ctx d.event).state,
        CallState.returned (h.Handle st d.ctx d.event).err
          (h.Handle st d.ctx d.event).effects) := by
  obtain ⟨ctx, obj, deleted⟩ := d
  cases obj with
  | other kind => rfl
  | storageOSCluster o =>
    cases deleted with
    | true =>
      cases hc : h.controller.IsCurrentCluster st o <;>
        simp [Handler.runCall, Handler.stepCall, Handler.Handle, hc]
    | false =>
      cases hc : h.controller.IsCurrentCluster (h.controller.SetCurrentClusterIfNone st o) o <;>
        simp [Handler.runCall, Handler.stepCall, Handler.Handle, hc]

/-- A call that has returned takes no step. -/
theorem stepCall_of_isReturned {σ : Type} (h : Handler σ) (st : σ) (c : CallState)
    (hc : c.isReturned = true) : h.stepCall st c = (st, c) := by
  cases c <;> simp [CallState.isReturned] at hc
  rfl

/-- A call that has not returned has fewer controller calls left after a step. -/
theorem remaining_stepCall_lt {σ : Type} (h : Handler σ) (st : σ) (c : CallState)
    (hc : c.isReturned = false) : (h.stepCall st c).2.remaining < c.remaining := by
  cases c with
  | start d =>
    obtain ⟨ctx, obj, deleted⟩ := d
    cases obj with
    | other kind => simp [Handler.stepCall, CallState.remaining]
    | storageOSCluster o =>
      cases deleted with
      | true =>
        cases hcur : h.controller.IsCurrentCluster st o <;>
          simp [Handler.stepCall, CallState.remaining, hcur]
      | false => simp [Handler.stepCall, CallState.remaining]
  | afterIsCurrentOnDelete o => simp [Handler.stepCall, CallState.remaining]
  | afterSetIfNone o =>
    cases hcur : h.controller.IsCurrentCluster st o <;>
      simp [Handler.stepCall, CallState.remaining, hcur]
  | beforeReconcile o => simp [Handler.stepCall, CallState.remaining]
  | returned err effects => simp [CallState.isReturned] at hc

/-- Every schedule that lets both calls return ends in one of the enumerated outcomes. -/
theorem interleave_mem_outcomes {σ : Type} (h : Handler σ) (schedule : List Bool) :
    ∀ (n : Nat) (c : Concurrent σ), c.first.remaining + c.second.remaining ≤ n →
      (h.interleave c schedule).finished = true →
      h.interleave c schedule ∈ h.outcomes n c := by
  induction schedule with
  | nil =>
    intro n c _ hfin
    cases n <;> simp [Handler.interleave, Handler.outcomes] at hfin ⊢ <;> simp [hfin]
  | cons b schedule ih =>
    intro n c hn hfin
    by_cases hdone : c.finished = true
    · have h1 : h.stepFirst c = c := by
        have hr : c.first.isReturned = true := by
          simp [Concurrent.finished] at hdone
          exact hdone.1
        simp [Handler.stepFirst, stepCall_of_isReturned h c.state c.first hr]
      have h2 : h.stepSecond c = c := by
        have hr : c.second.isReturned = true := by
          simp [Concurrent.finished] at hdone
          exact hdone.2
        simp [Handler.stepSecond, stepCall_of_isReturned h c.state c.second hr]
      cases b
      · rw [Handler.interleave, h2] at hfin ⊢
        exact ih n c hn hfin
      · rw [Handler.interleave, h1] at hfin ⊢
        exact ih n c hn hfin
    · cases b with
      | true =>
        rw [Handler.interleave] at hfin ⊢
        by_cases hr : c.first.isReturned = true
        · have h1 : h.stepFirst c = c := by
            simp [Handler.stepFirst, stepCall_of_isReturned h c.state c.first hr]
          rw [h1] at hfin ⊢
          exact ih n c hn hfin
        · have hr2 : c.first.isReturned = false := by simpa using hr
          have hlt := remaining_stepCall_lt h c.state c.first hr2
          cases n with
          | zero => omega
          | succ m =>
            have hmem := ih m (h.stepFirst c)
              (by simp only [Handler.stepFirst]; omega) hfin
            simp only [Handler.outcomes, hdone, hr2]
            simp [hmem]
      | false =>
        rw [Handler.interleave] at hfin ⊢
        by_cases hr : c.second.isReturned = true
        · have h2 : h.stepSecond c = c := by
            simp [Handler.stepSecond, stepCall_of_isReturned h c.state c.second hr]
          rw [h2] at hfin ⊢
          exact ih n c hn hfin
        · have hr2 : c.second.isReturned = false := by simpa using hr
          have hlt := remaining_stepCall_lt h c.state c.second hr2
          cases n with
          | zero => omega
          | succ m =>
            have hmem := ih m (h.stepSecond c)
              (by simp only [Handler.stepSecond]; omega) hfin
            simp only [Handler.outcomes, hdone, hr2]
            simp [hmem]

/-- C13 fails as stated: with `(ops, a)` admitted, the create event and the delete event
for `(ops, a)` handled at once under the racing schedule end with the create denied and
the registry empty, whereas the create is admitted in both sequential orders; so the two
calls are not linearisable. -/
theorem concurrent_delete_not_linearisable :
    (NewHandler exampleRecorder (registryController exampleReconcile)).interleave
        { state := some ("ops", "a"), first := CallState.start (createOf clusterA),
          second := CallState.start (deleteOf clusterA) } racingSchedule =
      { state := none,
        first := CallState.returned
          (some { msg := "can't create more than one storageos cluster" })
          [Effect.recorderEvent exampleRecorder clusterA "Warning" "FailedCreation"
            "can't create more than one storageos cluster"],
        second := CallState.returned none [] } ∧
    (NewHandler exampleRecorder (registryController exampleReconcile)).inOrder
        (some ("ops", "a")) (createOf clusterA) (deleteOf clusterA) =
      { state := none,
        first := CallState.returned none [Effect.reconcile clusterA exampleRecorder],
        second := CallState.returned none [] } ∧
    (NewHandler exampleRecorder (registryController exampleReconcile)).inReverseOrder
        (some ("ops", "a")) (createOf clusterA) (deleteOf clusterA) =
      { state := some ("ops", "a"),
        first := CallState.returned none [Effect.reconcile clusterA exampleRecorder],
        second := CallState.returned none [] } ∧
    ¬ (NewHandler exampleRecorder (registryController exampleReconcile)).Linearisable
        (some ("ops", "a")) (createOf clusterA) (deleteOf clusterA) := by
  refine ⟨by decide, by decide, by decide, ?_⟩
  intro hlin
  have hsched := hlin racingSchedule (by decide)
  revert hsched
  decide

/-- The ways a create event for `o` and a delete event for `o2` handled at once can end,
each registry call being atomic: as the order create, delete does; as the order delete,
create does; or, only for one and the same identity, with the create denied and the
registry empty, as the order create, delete leaves it. -/
theorem concurrent_delete_cases
    (reconcile : StorageOSCluster → EventRecorder → Option GoError) (eRec : EventRecorder)
    (r : Registry) (ctx ctx2 : Context) (o o2 : StorageOSCluster) (schedule : List Bool)
    (res : Concurrent Registry)
    (hres : (NewHandler eRec (registryController reconcile)).interleave
      { state := r,
        first := CallState.start
          { ctx := ctx, event := { Object := Object.storageOSCluster o, Deleted := false } },
        second := CallState.start
          { ctx := ctx2, event := { Object := Object.storageOSCluster o2, Deleted := true } } }
      schedule = res)
    (hfin : res.finished = true) :
    res = (NewHandler eRec (registryController reconcile)).inOrder r
        { ctx := ctx, event := { Object := Object.storageOSCluster o, Deleted := false } }
        { ctx := ctx2, event := { Object := Object.storageOSCluster o2, Deleted := true } } ∨
    res = (NewHandler eRec (registryController reconcile)).inReverseOrder r
        { ctx := ctx, event := { Object := Object.storageOSCluster o, Deleted := false } }
        { ctx := ctx2, event := { Object := Object.storageOSCluster o2, Deleted := true } } ∨
    (o.identity = o2.identity ∧
      ((NewHandler eRec (registryController reconcile)).inOrder r
        { ctx := ctx, event := { Object := Object.storageOSCluster o, Deleted := false } }
        { ctx := ctx2, event := { Object := Object.storageOSCluster o2, Deleted := true } }).state = none ∧
      res =
        { state := none,
          first := CallState.returned
            (some { msg := "can't create more than one storageos cluster" })
            [Effect.recorderEvent eRec o "Warning" "FailedCreation"
              "can't create more than one storageos cluster"],
          second := CallState.returned none [] }) := by
  subst hres
  have hmem := interleave_mem_outcomes (NewHandler eRec (registryController reconcile))
    schedule 6 _ (by simp [CallState.remaining]) hfin
  generalize (NewHandler eRec (registryController reconcile)).interleave _ schedule = res
    at hmem ⊢
  cases r with
  | none =>
    by_cases hid : o.identity = o2.identity
    · simp [Handler.outcomes, Handler.stepFirst, Handler.stepSecond, Handler.stepCall,
        Concurrent.finished, CallState.isReturned, NewHandler, registryController,
        Registry.isCurrent, Registry.setIfNone, Registry.reset, Handler.inOrder,
        Handler.inReverseOrder, Handler.Handle, fmt.Errorf, GoError.Error,
        corev1.EventTypeWarning, hid] at hmem ⊢
      tauto
    · simp [Handler.outcomes, Handler.stepFirst, Handler.stepSecond, Handler.stepCall,
        Concurrent.finished, CallState.isReturned, NewHandler, registryController,
        Registry.isCurrent, Registry.setIfNone, Registry.reset, Handler.inOrder,
        Handler.inReverseOrder, Handler.Handle, fmt.Errorf, GoError.Error,
        corev1.EventTypeWarning, hid] at hmem ⊢
      tauto
  | some C =>
    by_cases hC1 : C = o.identity
    · subst hC1
      by_cases hid : o.identity = o2.identity
      · simp [Handler.outcomes, Handler.stepFirst, Handler.stepSecond, Handler.stepCall,
          Concurrent.finished, CallState.isReturned, NewHandler, registryController,
          Registry.isCurrent, Registry.setIfNone, Registry.reset, Handler.inOrder,
          Handler.inReverseOrder, Handler.Handle, fmt.Errorf, GoError.Error,
          corev1.EventTypeWarning, hid] at hmem ⊢
        tauto
      · simp [Handler.outcomes, Handler.stepFirst, Handler.stepSecond, Handler.stepCall,
          Concurrent.finished, CallState.isReturned, NewHandler, registryController,
          Registry.isCurrent, Registry.setIfNone, Registry.reset, Handler.inOrder,
          Handler.inReverseOrder, Handler.Handle, fmt.Errorf, GoError.Error,
          corev1.EventTypeWarning, hid] at hmem ⊢
        tauto
    · by_cases hC2 : C = o2.identity
      · subst hC2
        have hid : ¬ o.identity = o2.identity := fun hEq => hC1 hEq.symm
        simp [Handler.outcomes, Handler.stepFirst, Handler.stepSecond, Handler.stepCall,
          Concurrent.finished, CallState.isReturned, NewHandler, registryController,
          Registry.isCurrent, Registry.setIfNone, Registry.reset, Handler.inOrder,
          Handler.inReverseOrder, Handler.Handle, fmt.Errorf, GoError.Error,
          corev1.EventTypeWarning, hC1, hid] at hmem ⊢
        tauto
      · by_cases hid : o.identity = o2.identity
        · simp [Handler.outcomes, Handler.stepFirst, Handler.stepSecond, Handler.stepCall,
            Concurrent.finished, CallState.isReturned, NewHandler, registryController,
            Registry.isCurrent, Registry.setIfNone, Registry.reset, Handler.inOrder,
            Handler.inReverseOrder, Handler.Handle, fmt.Errorf, GoError.Error,
            corev1.EventTypeWarning, hC1, hC2, hid] at hmem ⊢
          tauto
        · simp [Handler.outcomes, Handler.stepFirst, Handler.stepSecond, Handler.stepCall,
            Concurrent.finished, CallState.isReturned, NewHandler, registryController,
            Registry.isCurrent, Registry.setIfNone, Registry.reset, Handler.inOrder,
            Handler.inReverseOrder, Handler.Handle, fmt.Errorf, GoError.Error,
            corev1.EventTypeWarning, hC1, hC2, hid] at hmem ⊢
          tauto

/-- C13 as amended. A create event for `o` and a delete event for `o2` are handled at
once, each registry call being atomic, under a schedule that lets both calls return.
(1) When the identities differ the two calls are linearisable: the result is that of one
of the two sequential orders. (2) In every case the registry left is that of one of the
two sequential orders. (3) In every case the result is that of a sequential order, or
the create is denied with the warning and the registry is empty. -/
theorem concurrent_delete_outcomes
    (reconcile : StorageOSCluster → EventRecorder → Option GoError) (eRec : EventRecorder)
    (r : Registry) (ctx ctx2 : Context) (o o2 : StorageOSCluster) (schedule : List Bool)
    (res : Concurrent Registry)
    (hres : (NewHandler eRec (registryController reconcile)).interleave
      { state := r,
        first := CallState.start
          { ctx := ctx, event := { Object := Object.storageOSCluster o, Deleted := false } },
        second := CallState.start
          { ctx := ctx2, event := { Object := Object.storageOSCluster o2, Deleted := true } } }
      schedule = res)
    (hfin : res.finished = true) :
    (o.identity ≠ o2.identity →
      res = (NewHandler eRec (registryController reconcile)).inOrder r
          { ctx := ctx, event := { Object := Object.storageOSCluster o, Deleted := false } }
          { ctx := ctx2, event := { Object := Object.storageOSCluster o2, Deleted := true } } ∨
      res = (NewHandler eRec (registryController reconcile)).inReverseOrder r
          { ctx := ctx, event := { Object := Object.storageOSCluster o, Deleted := false } }
          { ctx := ctx2, event := { Object := Object.storageOSCluster o2, Deleted := true } }) ∧
    (res.state = ((NewHandler eRec (registryController reconcile)).inOrder r
          { ctx := ctx, event := { Object := Object.storageOSCluster o, Deleted := false } }
          { ctx := ctx2,
            event := { Object := Object.storageOSCluster o2, Deleted := true } }).state ∨
      res.state = ((NewHandler eRec (registryController reconcile)).inReverseOrder r
          { ctx := ctx, event := { Object := Object.storageOSCluster o, Deleted := false } }
          { ctx := ctx2,
            event := { Object := Object.storageOSCluster o2, Deleted := true } }).state) ∧
    (res = (NewHandler eRec (registryController reconcile)).inOrder r
          { ctx := ctx, event := { Object := Object.storageOSCluster o, Deleted := false } }
          { ctx := ctx2, event := { Object := Object.storageOSCluster o2, Deleted := true } } ∨
      res = (NewHandler eRec (registryController reconcile)).inReverseOrder r
          { ctx := ctx, event := { Object := Object.storageOSCluster o, Deleted := false } }
          { ctx := ctx2, event := { Object := Object.storageOSCluster o2, Deleted := true } } ∨
      res =
        { state := none,
          first := CallState.returned
            (some { msg := "can't create more than one storageos cluster" })
            [Effect.recorderEvent eRec o "Warning" "FailedCreation"
              "can't create more than one storageos cluster"],
          second := CallState.returned none [] }) := by
  rcases concurrent_delete_cases reconcile eRec r ctx ctx2 o o2 schedule res hres hfin with
    h1 | h2 | ⟨hid, hstate, h3⟩
  · exact ⟨fun _ => Or.inl h1, Or.inl (by rw [h1]), Or.inl h1⟩
  · exact ⟨fun _ => Or.inr h2, Or.inr (by rw [h2]), Or.inr (Or.inl h2)⟩
  · refine ⟨fun hne => absurd hid hne, Or.inl ?_, Or.inr (Or.inr h3)⟩
    rw [hstate, h3]

/-- C13 as amended, on two races from the registry that holds `(ops, a)` under the
racing schedule: the create of `(ops, b)` against the delete of `(ops, a)` ends as the
order create, delete does; the create of `(ops, a)` against the delete of `(ops, a)`
leaves the registry of that order. -/
theorem concurrent_delete_outcomes_witness :
    ((NewHandler exampleRecorder (registryController exampleReconcile)).interleave
        { state := some ("ops", "a"), first := CallState.start (createOf clusterB),
          second := CallState.start (deleteOf clusterA) } racingSchedule =
      (NewHandler exampleRecorder (registryController exampleReconcile)).inOrder
        (some ("ops", "a")) (createOf clusterB) (deleteOf clusterA) ∨
     (NewHandler exampleRecorder (registryController exampleReconcile)).interleave
        { state := some ("ops", "a"), first := CallState.start (createOf clusterB),
          second := CallState.start (deleteOf clusterA) } racingSchedule =
      (NewHandler exampleRecorder (registryController exampleReconcile)).inReverseOrder
        (some ("ops", "a")) (createOf clusterB) (deleteOf clusterA)) ∧
    (((NewHandler exampleRecorder (registryController exampleReconcile)).interleave
        { state := some ("ops", "a"), first := CallState.start (createOf clusterA),
          second := CallState.start (deleteOf clusterA) } racingSchedule).state =
      ((NewHandler exampleRecorder (registryController exampleReconcile)).inOrder
        (some ("ops", "a")) (createOf clusterA) (deleteOf clusterA)).state ∨
     ((NewHandler exampleRecorder (registryController exampleReconcile)).interleave
        { state := some ("ops", "a"), first := CallState.start (createOf clusterA),
          second := CallState.start (deleteOf clusterA) } racingSchedule).state =
      ((NewHandler exampleRecorder (registryController exampleReconcile)).inReverseOrder
        (some ("ops", "a")) (createOf clusterA) (deleteOf clusterA)).state) :=
  ⟨(concurrent_delete_outcomes exampleReconcile exampleRecorder (some ("ops", "a"))
      background background clusterB clusterA racingSchedule _ rfl (by decide)).1
      (by decide),
    (concurrent_delete_outcomes exampleReconcile exampleRecorder (some ("ops", "a"))
      background background clusterA clusterA racingSchedule _ rfl (by decide)).2.1⟩

end StorageOS
